import Mathlib

/-!
Verification development for the SharpSkill validation pipeline.

The repository contains two near-duplicate pipeline implementations:
`sharpskill.py` (class `MasterPipeline` with `SkillTester.run_all` and the
STAGE-4 decision block) and `test_bot.py` (class `SkillTester.test_skill`
with the `SyntaxTester`/`DependencyTester`/`SandboxRunner`/`MockApiTester`
levels).  Both are embedded below: namespace `SS` models `sharpskill.py`,
namespace `TB` models `test_bot.py`.

External collaborators (the YAML/`ast` parsers of the Python runtime,
`node --check`/`bash -n` subprocesses, npm/PyPI index lookups, sandbox
subprocess execution, and the external repair-generation service) are
modelled as oracle functions collected in an `Env` record.  A subprocess
call has three possible outcomes (`Proc`): it completed with an exit code
and captured output, it hit the wall-clock timeout
(`subprocess.TimeoutExpired`), or the interpreter binary was missing
(`FileNotFoundError`).  Where the Python code does not catch one of those
exceptions, the embedding returns `Except.error`, so exception escape is
observable.  Wall-clock durations (`duration_ms`) and the fixed
rate-limit sleeps are omitted: no claim mentions them.  Scores are
embedded as rationals (`ℚ`); the Python floats involved take only values
(multiples of small fractions) where float rounding cannot change any
comparison appearing in the code.
-/

namespace SharpSkillPipeline

/- Batteries marks rational arithmetic `@[irreducible]`, which blocks the
`decide` tactic's evaluation of the concrete pipeline runs below; scores
are exact rationals here, so unfolding them is both safe and needed. -/
attribute [local semireducible] Rat.add Rat.mul Rat.inv Rat.sub Rat.ofScientific

set_option maxRecDepth 100000

/-! ## Python-style string utilities -/

/-- The backtick character (written via its code point). -/
def bt : Char := Char.ofNat 96

/-- The single-quote character (written via its code point). -/
def sq : Char := Char.ofNat 39

/-- Single-quote as a one-character string. -/
def sqs : String := String.mk [sq]

/-- Characters stripped by Python `str.strip()`. -/
def isPyWs (c : Char) : Bool :=
  c == ' ' || c == '\t' || c == '\n' || c == '\r' || c == '\x0b' || c == '\x0c'

/-- Python `str.strip()` on a character list. -/
def pyStripL (l : List Char) : List Char :=
  ((l.dropWhile isPyWs).reverse.dropWhile isPyWs).reverse

/-- Python `str.strip()`. -/
def pyStrip (s : String) : String :=
  String.mk (pyStripL s.data)

/-- Python slicing `s[:n]` (character based). -/
def strTake (s : String) (n : Nat) : String :=
  String.mk (s.data.take n)

/-- Python `str.lower()` (ASCII, which is all the pipeline feeds it). -/
def toLowerStr (s : String) : String :=
  String.mk (s.data.map Char.toLower)

/-- `needle` occurs at the head of `hay` (both as character lists). -/
def startsWithL : List Char → List Char → Bool
  | [], _ => true
  | _ :: _, [] => false
  | a :: as, b :: bs => a == b && startsWithL as bs

/-- Python `s.startswith(p)`. -/
def strStarts (s p : String) : Bool :=
  startsWithL p.data s.data

/-- `needle` occurs somewhere in `hay` (character lists). -/
def hasSubL (needle : List Char) : List Char → Bool
  | [] => startsWithL needle []
  | l :: rest => startsWithL needle (l :: rest) || hasSubL needle rest

/-- Python `needle in hay` on strings. -/
def strHas (hay needle : String) : Bool :=
  hasSubL needle.data hay.data

/-- Match a literal character list at the head of the input, returning the rest. -/
def dropLit : List Char → List Char → Option (List Char)
  | [], cs => some cs
  | _ :: _, [] => none
  | l :: ls, c :: cs => if c == l then dropLit ls cs else none

/-- Python `"\n".join(xs)`. -/
def joinLines (xs : List String) : String :=
  String.intercalate "\n" xs

/-! ## Collaborator model -/

instance {ε α : Type} [DecidableEq ε] [DecidableEq α] : DecidableEq (Except ε α) := fun x y =>
  match x, y with
  | Except.error a, Except.error b => decidable_of_iff (a = b) (by simp)
  | Except.error _, Except.ok _ => Decidable.isFalse (by simp)
  | Except.ok _, Except.error _ => Decidable.isFalse (by simp)
  | Except.ok a, Except.ok b => decidable_of_iff (a = b) (by simp)

/-- Outcome of one `subprocess.run` call. -/
inductive Proc where
  | completed (rc : Int) (stdout stderr : String)
  | timeout
  | notFound
deriving DecidableEq, Repr

/-- Python exceptions that the pipeline code can let escape. -/
inductive Exc where
  | fileNotFound
  | timeoutExpired
deriving DecidableEq, Repr

/-- Oracles for every external collaborator and runtime-library call the
pipeline makes.  `yamlErr`/`jsonErr` return `none` when the text parses and
`some message` for the parse error; `pyErr` mirrors `ast.parse`, returning
the `SyntaxError` line number and message on failure.  `npm`/`pypi` return
the latest version for an existing package and `none` for absence or an
index/network error (both code bases treat those identically).  `run` is
sandbox subprocess execution of a source file of the given language and
text (the mock levels pass the mock-injected text), and `claude` is the
external repair-generation service (`none` covers a non-200 response or a
transport error). -/
structure Env where
  yamlErr : String → Option String
  pyErr : String → Option (Nat × String)
  nodeCheck : String → Proc
  bashCheck : String → Proc
  jsonErr : String → Option String
  npm : String → Option String
  pypi : String → Option String
  run : String → String → Proc
  claude : String → Option String

/-- Observable actions of one pipeline run: document extraction and level
execution per document version (phase 0 = original, phase 1 = repaired),
external repair requests, GitHub push requests, draft saves. -/
inductive Event where
  | extractDoc (phase : Nat)
  | level (phase : Nat) (lname : String)
  | fixRequest
  | pushReq (label : String)
  | draft
deriving DecidableEq, Repr

/-! ## Regex scanners shared by both extractors

`CodeExtractor.extract` uses `re.finditer` with three fixed patterns; the
scanners below implement exactly those patterns (left-to-right,
non-overlapping, with the backtracking behaviour the patterns admit). -/

/-- `\w` of the patterns: `[a-zA-Z0-9_]`. -/
def isWordChar (c : Char) : Bool :=
  c.isAlphanum || c == '_'

/-- `[a-zA-Z]`, the first character of a captured package name. -/
def isIdentStart (c : Char) : Bool :=
  c.isAlpha

/-- `\s` of the patterns (ASCII, which is all the documents contain). -/
def isReSpace (c : Char) : Bool :=
  c == ' ' || c == '\t' || c == '\n' || c == '\r' || c == '\x0b' || c == '\x0c'

/-- Attempt the fenced-block pattern ```` ```(\w+)?\n([\s\S]*?)``` ```` at the
current position: three backticks, an optional word, a newline.  Returns
`(language word, rest after the newline)`. -/
def fenceOpen (cs : List Char) : Option (List Char × List Char) :=
  match dropLit [bt, bt, bt] cs with
  | none => none
  | some r =>
    let w := r.takeWhile isWordChar
    match r.dropWhile isWordChar with
    | '\n' :: r2 => some (w, r2)
    | _ => none

/-- Split the input at the first occurrence of three backticks (the lazy
`([\s\S]*?)` body followed by the closing fence); `none` if never closed. -/
def closeSplit : Nat → List Char → Option (List Char × List Char)
  | 0, _ => none
  | _, [] => none
  | fuel + 1, c :: rest =>
    if c == bt && rest.take 2 == [bt, bt] then
      some ([], rest.drop 2)
    else
      match closeSplit fuel rest with
      | some (body, r) => some (c :: body, r)
      | none => none

/-- One full fenced-block match attempt at the current position. -/
def fenceMatch (cs : List Char) : Option (String × String × List Char) :=
  match fenceOpen cs with
  | none => none
  | some (w, r) =>
    match closeSplit r.length r with
    | some (body, rest) => some (String.mk w, String.mk body, rest)
    | none => none

/-- `re.finditer` scan for fenced blocks: try a match at every position,
resume after the closing fence of each match. -/
def fenceScan : Nat → List Char → List (String × String)
  | 0, _ => []
  | _, [] => []
  | fuel + 1, c :: rest =>
    match fenceMatch (c :: rest) with
    | some (w, body, rest2) => (w, body) :: fenceScan fuel rest2
    | none => fenceScan fuel rest

/-- All `(raw language tag, raw body)` fence matches of a document. -/
def rawFences (content : String) : List (String × String) :=
  fenceScan content.data.length content.data

/-- Attempt `^(?:import|from)\s+([a-zA-Z][a-zA-Z0-9_]*)` at a line start:
keyword, at least one whitespace character, then the captured identifier. -/
def importMatch (cs : List Char) : Option (String × List Char) :=
  let kw :=
    match dropLit "import".data cs with
    | some r => some r
    | none => dropLit "from".data cs
  match kw with
  | none => none
  | some r =>
    let sp := r.takeWhile isReSpace
    let r2 := r.dropWhile isReSpace
    if sp.isEmpty then none
    else
      match r2 with
      | [] => none
      | c :: _ =>
        if isIdentStart c then
          let nm := r2.takeWhile isWordChar
          some (String.mk nm, r2.drop nm.length)
        else none

/-- `re.findall` with `re.MULTILINE` for the import pattern: the `^` anchor
holds at position 0 and right after every newline; matching resumes after
each captured identifier. -/
def pyImportsAux : Nat → Bool → List Char → List String
  | 0, _, _ => []
  | _, _, [] => []
  | fuel + 1, atStart, c :: rest =>
    if atStart then
      match importMatch (c :: rest) with
      | some (nm, rest2) => nm :: pyImportsAux fuel false rest2
      | none => pyImportsAux fuel (c == '\n') rest
    else pyImportsAux fuel (c == '\n') rest

/-- All module names captured from `import`/`from` lines of a python block. -/
def pyImports (code : String) : List String :=
  pyImportsAux code.data.length true code.data

/-- Attempt one JS package pattern at the current position: the literal
lead-in (`require(` or `from` + space), a quote (`['\"]`), a first body
character outside `[^./']`, more body characters outside `[^'\"]`, and a
closing quote.  Returns `(captured name, rest)`. -/
def jsPkgMatch (lead : List Char) (cs : List Char) : Option (String × List Char) :=
  match dropLit lead cs with
  | none => none
  | some r =>
    match r with
    | [] => none
    | q :: r2 =>
      if q == sq || q == '"' then
        match r2 with
        | [] => none
        | c :: r3 =>
          if c == '.' || c == '/' || c == sq then none
          else
            let body := r3.takeWhile (fun ch => !(ch == sq || ch == '"'))
            match r3.drop body.length with
            | q2 :: r4 =>
              if q2 == sq || q2 == '"' then
                some (String.mk (c :: body), r4)
              else none
            | [] => none
      else none

/-- `re.findall` scan for one JS package pattern. -/
def jsPkgScan (lead : List Char) : Nat → List Char → List String
  | 0, _ => []
  | _, [] => []
  | fuel + 1, c :: rest =>
    match jsPkgMatch lead (c :: rest) with
    | some (nm, rest2) => nm :: jsPkgScan lead fuel rest2
    | none => jsPkgScan lead fuel rest

/-- All captures of `require\(['\"]([^./'][^'\"]*)['\"]` in a block. -/
def jsRequirePkgs (code : String) : List String :=
  jsPkgScan "require(".data code.data.length code.data

/-- All captures of `from ['\"]([^./'][^'\"]*)['\"]` in a block. -/
def jsFromPkgs (code : String) : List String :=
  jsPkgScan "from ".data code.data.length code.data

/-- Python `name.replace("_", "-")` (the arguments are single characters,
so the substring replacement is character-wise). -/
def dashify (s : String) : String :=
  String.mk (s.data.map (fun c => if c == '_' then '-' else c))

namespace SS

/-! ## `sharpskill.py` — `CodeExtractor` -/

/-- `CodeExtractor.STDLIB_PY`. -/
def STDLIB_PY : List String :=
  ["os", "sys", "re", "json", "time", "datetime", "pathlib", "typing",
   "hashlib", "base64", "subprocess", "tempfile", "argparse", "math",
   "random", "string", "functools", "itertools", "collections", "io",
   "urllib", "http", "email", "logging", "threading", "asyncio", "uuid"]

/-- `LANG_MAP.get(lang_raw, lang_raw or "unknown")`. -/
def LANG_MAP (raw : String) : String :=
  if raw == "js" || raw == "javascript" then "javascript"
  else if raw == "ts" || raw == "typescript" then "typescript"
  else if raw == "py" || raw == "python" then "python"
  else if raw == "bash" || raw == "sh" || raw == "shell" then "bash"
  else if raw == "sql" then "sql"
  else if raw == "yaml" || raw == "yml" then "yaml"
  else if raw == "json" then "json"
  else if raw == "" then "unknown"
  else raw

/-- `CodeExtractor._packages`.  `list(set(pkgs))` iterates a Python set whose
order is unspecified; the embedding fixes first-occurrence order
(`List.dedup` keeps the first copy of each name), which is the only part of
the behaviour any claim depends on. -/
def packagesOf (code lang : String) : List String :=
  let pkgs :=
    if lang == "javascript" || lang == "typescript" then
      jsRequirePkgs code ++ jsFromPkgs code
    else if lang == "python" then
      ((pyImports code).filter (fun p => !STDLIB_PY.contains p)).map dashify
    else []
  (pkgs.dedup).take 10

/-- `CodeExtractor._needs_api`: `re.search` over an alternation of literals. -/
def needsApiOf (code : String) : Bool :=
  strHas code "process.env." || strHas code "os.getenv" || strHas code "os.environ" ||
  strHas code "API_KEY" || strHas code "SECRET" || strHas code "TOKEN" ||
  strHas code ".connect("

/-- One extracted code block (the dict literal built in `extract`). -/
structure Block where
  lang : String
  code : String
  packages : List String
  needsApi : Bool
  isCommunity : Bool
deriving DecidableEq, Repr

/-- `CodeExtractor.extract`. -/
def extract (content : String) : List Block :=
  (rawFences content).filterMap (fun wb =>
    let langRaw := pyStrip (toLowerStr wb.1)
    let code := pyStrip wb.2
    let lang := LANG_MAP langRaw
    if code.data.length < 15 then none
    else
      some { lang := lang, code := code,
             packages := packagesOf code lang,
             needsApi := needsApiOf code,
             isCommunity := strHas code "# Source: community" ||
                            strHas code "# Tested: SharpSkill" })

/-! ## `sharpskill.py` — `PipelineStage` and the four levels -/

/-- `PipelineStage` (the wall-clock `duration_ms` field is omitted). -/
structure Stage where
  name : String
  status : String
  details : List String
  errors : List String
deriving DecidableEq, Repr

/-- `if b["is_community"] else "official"` tag used in the log lines. -/
def tagOf (b : Block) : String :=
  if b.isCommunity then "community" else "official"

/-- Lazy capture of `re.match(r'^---\n(.*?)\n---', content, re.DOTALL)`:
shortest prefix of the tail that is followed by `\n---`. -/
def fmCapture : List Char → Option (List Char)
  | [] => none
  | c :: rest =>
    if c == '\n' && rest.take 3 == ['-', '-', '-'] then some []
    else
      match fmCapture rest with
      | some l => some (c :: l)
      | none => none

/-- The YAML front-matter capture of `_test_syntax`, when the document
matches the anchored pattern. -/
def frontmatter (content : String) : Option String :=
  match content.data with
  | '-' :: '-' :: '-' :: '\n' :: rest => (fmCapture rest).map String.mk
  | _ => none

/-- `SkillTester._syntax_check`.  The bash branch runs `subprocess.run`
with no `try`, so a missing interpreter (`FileNotFoundError`) or a timeout
(`subprocess.TimeoutExpired`) escapes; the node branch catches only
`FileNotFoundError`. -/
def l1Check (env : Env) (lang code : String) : Except Exc (Bool × String) :=
  if lang == "python" then
    match env.pyErr code with
    | none => .ok (true, "")
    | some (ln, msg) => .ok (false, "SyntaxError L" ++ toString ln ++ ": " ++ msg)
  else if lang == "javascript" || lang == "typescript" then
    match env.nodeCheck code with
    | .completed rc _ err => .ok (rc == 0, strTake err 150)
    | .notFound => .ok (true, "")
    | .timeout => .error .timeoutExpired
  else if lang == "bash" then
    match env.bashCheck code with
    | .completed rc _ err => .ok (rc == 0, strTake err 100)
    | .notFound => .error .fileNotFound
    | .timeout => .error .timeoutExpired
  else if lang == "yaml" || lang == "yml" then
    match env.yamlErr code with
    | none => .ok (true, "")
    | some e => .ok (false, strTake e 100)
  else if lang == "json" then
    match env.jsonErr code with
    | none => .ok (true, "")
    | some e => .ok (false, strTake e 100)
  else .ok (true, "")

/-- The per-block loop of `_test_syntax`; returns
`(details, errors, passed, codes of the blocks that were syntax-checked)`.
`passed` is counted by the source but never read afterwards. -/
def l1Loop (env : Env) : Nat → List Block → Except Exc (List String × List String × Nat × List String)
  | _, [] => .ok ([], [], 0, [])
  | i, b :: bs =>
    match l1Check env b.lang b.code with
    | .error e => .error e
    | .ok (ok, err) =>
      match l1Loop env (i + 1) bs with
      | .error e => .error e
      | .ok (ds, es, passed, checked) =>
        if ok then
          .ok (("✅ [" ++ b.lang ++ "|" ++ tagOf b ++ "] block #" ++ toString (i + 1) ++ ": syntax OK") :: ds,
               es, passed + 1, b.code :: checked)
        else
          .ok (ds,
               ("❌ [" ++ b.lang ++ "|" ++ tagOf b ++ "] block #" ++ toString (i + 1) ++ ": " ++ strTake err 120) :: es,
               passed, b.code :: checked)

/-- The block-level part of `_test_syntax` (after the front-matter check):
the empty-extraction failure and the per-block loop. -/
def testL1Blocks (env : Env) (blocks : List Block) (fmLogs : List String) :
    Except Exc (Stage × List String) :=
  if blocks.isEmpty then
    .ok ({ name := "TEST_L1_SYNTAX", status := "FAIL", details := fmLogs,
           errors := ["No code blocks found"] }, [])
  else
    match l1Loop env 0 blocks with
    | .error e => .error e
    | .ok (ds, es, _, checked) =>
      .ok ({ name := "TEST_L1_SYNTAX",
             status := if es.isEmpty then "PASS" else "FAIL",
             details := fmLogs ++ ds, errors := es }, checked)

/-- `SkillTester._test_syntax`: YAML front matter first (an invalid header
returns FAIL before any block is examined), then the per-block loop.  The
second component lists the codes of the blocks actually syntax-checked. -/
def testL1 (env : Env) (blocks : List Block) (content : String) :
    Except Exc (Stage × List String) :=
  match frontmatter content with
  | some fm =>
    match env.yamlErr fm with
    | some e =>
      .ok ({ name := "TEST_L1_SYNTAX", status := "FAIL", details := [],
             errors := ["❌ YAML front matter invalid: " ++ strTake e 150] }, [])
    | none => testL1Blocks env blocks ["✅ YAML front matter: valid"]
  | none => testL1Blocks env blocks []

/-- Accumulator of one dependency-lookup loop. -/
structure DepAcc where
  details : List String
  errors : List String
  passed : Nat
  total : Nat
deriving DecidableEq, Repr

/-- The npm loop of `_test_deps`. -/
def npmLoop (env : Env) : List String → DepAcc
  | [] => ⟨[], [], 0, 0⟩
  | p :: ps =>
    let r := npmLoop env ps
    match env.npm p with
    | some v => ⟨("✅ npm:" ++ p ++ "@" ++ v) :: r.details, r.errors, r.passed + 1, r.total + 1⟩
    | none => ⟨r.details, ("❌ npm:" ++ p ++ " — not found (wrong package name?)") :: r.errors,
               r.passed, r.total + 1⟩

/-- The PyPI loop of `_test_deps`. -/
def pypiLoop (env : Env) : List String → DepAcc
  | [] => ⟨[], [], 0, 0⟩
  | p :: ps =>
    let r := pypiLoop env ps
    match env.pypi p with
    | some v => ⟨("✅ pip:" ++ p ++ "@" ++ v) :: r.details, r.errors, r.passed + 1, r.total + 1⟩
    | none => ⟨r.details, ("❌ pip:" ++ p ++ " — not found") :: r.errors, r.passed, r.total + 1⟩

/-- The npm package set collected by `_test_deps` (`set.update` iterates in
unspecified order; first-occurrence order is fixed here). -/
def npmPkgsOf (blocks : List Block) : List String :=
  ((blocks.filter (fun b => b.lang == "javascript" || b.lang == "typescript")).flatMap
    Block.packages).dedup

/-- The PyPI package set collected by `_test_deps`. -/
def pypiPkgsOf (blocks : List Block) : List String :=
  ((blocks.filter (fun b => b.lang == "python")).flatMap Block.packages).dedup

/-- `SkillTester._test_deps`.  `passed`/`total` are computed by the source
but the status depends only on whether any error was recorded. -/
def testDeps (env : Env) (blocks : List Block) : Stage :=
  let npmPkgs := npmPkgsOf blocks
  let pypiPkgs := pypiPkgsOf blocks
  if npmPkgs.isEmpty && pypiPkgs.isEmpty then
    { name := "TEST_L2_DEPS", status := "SKIP",
      details := ["⏭️  No external packages detected"], errors := [] }
  else
    let rn := npmLoop env npmPkgs
    let rp := pypiLoop env pypiPkgs
    { name := "TEST_L2_DEPS",
      status := if (rn.errors ++ rp.errors).isEmpty then "PASS" else "FAIL",
      details := rn.details ++ rp.details,
      errors := rn.errors ++ rp.errors }

/-- `SkillTester._run`: the subprocess helper.  It catches both
`TimeoutExpired` (result `False, "", "Timeout"`) and `FileNotFoundError`
(result `True, "", "interpreter not found"`), so it is total. -/
def runRes (env : Env) (lang code : String) : Bool × String × String :=
  if lang == "python" || lang == "javascript" || lang == "typescript" || lang == "bash" then
    match env.run lang code with
    | .completed rc out err => (rc == 0, strTake out 300, strTake err 300)
    | .timeout => (false, "", "Timeout")
    | .notFound => (true, "", "interpreter not found")
  else (true, "", "")

/-- Accumulator of an execution loop (L3/L4). -/
structure ExecAcc where
  details : List String
  errors : List String
  passed : Nat
deriving DecidableEq, Repr

/-- The execution loop of `_test_sandbox` over the capped candidate list. -/
def sandboxLoop (env : Env) : Nat → List Block → ExecAcc
  | _, [] => ⟨[], [], 0⟩
  | i, b :: bs =>
    let res := runRes env b.lang b.code
    let r := sandboxLoop env (i + 1) bs
    if res.1 then
      let okLine := "✅ [" ++ b.lang ++ "|" ++ tagOf b ++ "] block #" ++ toString (i + 1) ++ ": runs OK"
      let extra := if res.2.1.isEmpty then [] else ["   → " ++ strTake res.2.1 80]
      ⟨okLine :: (extra ++ r.details), r.errors, r.passed + 1⟩
    else if strHas res.2.2 "ModuleNotFoundError" || strHas res.2.2 "Cannot find module" then
      ⟨("⚠️  [" ++ b.lang ++ "|" ++ tagOf b ++ "] block #" ++ toString (i + 1) ++ ": missing package (needs install)") :: r.details,
       r.errors, r.passed⟩
    else if strHas res.2.2 "SyntaxError" then
      ⟨r.details,
       ("❌ [" ++ b.lang ++ "|" ++ tagOf b ++ "] block #" ++ toString (i + 1) ++ ": runtime SyntaxError") :: r.errors,
       r.passed⟩
    else
      ⟨("⚠️  [" ++ b.lang ++ "|" ++ tagOf b ++ "] block #" ++ toString (i + 1) ++ ": needs env (expected)") :: r.details,
       r.errors, r.passed⟩

/-- The L3 candidate set: executable language, no credentials needed. -/
def runnableOf (blocks : List Block) : List Block :=
  blocks.filter (fun b =>
    !b.needsApi && (b.lang == "python" || b.lang == "javascript" || b.lang == "bash"))

/-- `SkillTester._test_sandbox`.  The second component is the list of blocks
actually executed (`runnable[:4]`). -/
def testSandbox (env : Env) (blocks : List Block) : Stage × List Block :=
  let runnable := runnableOf blocks
  if runnable.isEmpty then
    ({ name := "TEST_L3_SANDBOX", status := "SKIP",
       details := ["⏭️  All blocks require API — sandbox skipped"], errors := [] }, [])
  else
    let execd := runnable.take 4
    let r := sandboxLoop env 0 execd
    let score : ℚ := (r.passed : ℚ) / ((max runnable.length 1 : Nat) : ℚ)
    ({ name := "TEST_L3_SANDBOX",
       status := if (1 : ℚ)/2 ≤ score ∨ r.errors = [] then "PASS" else "PARTIAL",
       details := r.details, errors := r.errors }, execd)

/-! ## `sharpskill.py` — L4 mock layer -/

/-- Comma-joined single-quoted name list, as it appears in the mock header. -/
def quoteJoin (names : List String) : String :=
  String.intercalate "," (names.map (fun n => sqs ++ n ++ sqs))

/-- `SkillTester.MOCK_PY`, the python mock preamble. -/
def MOCK_PY : String :=
  "\nimport sys\nfrom unittest.mock import MagicMock\nclass _M(MagicMock):\n    def __call__(self, *a, **kw): return MagicMock()\nfor _p in ["
  ++ quoteJoin ["stripe", "twilio", "sendgrid", "resend", "openai", "anthropic"]
  ++ ",\n           "
  ++ quoteJoin ["psycopg2", "pymongo", "redis", "boto3", "langchain", "litellm"]
  ++ "]:\n    sys.modules[_p] = _M()\n"

/-- `SkillTester.MOCK_JS`. -/
def MOCK_JS : String :=
  "const require = () => new Proxy(\x7b\x7d, \x7b get: () => () => (\x7b\x7d) \x7d);\n"

/-- Attempt `os\.environ\[['\"](\w+)['\"]\]` at the current position. -/
def pyEnvIdxMatch (cs : List Char) : Option (String × List Char) :=
  match dropLit "os.environ[".data cs with
  | none => none
  | some r =>
    match r with
    | [] => none
    | q :: r2 =>
      if q == sq || q == '"' then
        let nm := r2.takeWhile isWordChar
        if nm.isEmpty then none
        else
          match r2.drop nm.length with
          | q2 :: ']' :: r3 =>
            if q2 == sq || q2 == '"' then some (String.mk nm, r3) else none
          | _ => none
      else none

/-- Attempt `os\.getenv\(['\"](\w+)['\"](?:,[^)]+)?\)` at the current
position (with the backtracking the optional group admits). -/
def pyGetenvMatch (cs : List Char) : Option (String × List Char) :=
  match dropLit "os.getenv(".data cs with
  | none => none
  | some r =>
    match r with
    | [] => none
    | q :: r2 =>
      if q == sq || q == '"' then
        let nm := r2.takeWhile isWordChar
        if nm.isEmpty then none
        else
          match r2.drop nm.length with
          | [] => none
          | q2 :: r3 =>
            if q2 == sq || q2 == '"' then
              match r3 with
              | ')' :: r4 => some (String.mk nm, r4)
              | ',' :: r4 =>
                let skip := r4.takeWhile (fun ch => !(ch == ')'))
                if skip.isEmpty then none
                else
                  match r4.drop skip.length with
                  | ')' :: r5 => some (String.mk nm, r5)
                  | _ => none
              | _ => none
            else none
      else none

/-- The replacement text `f"'mock_{name.lower()}'"`. -/
def mockRepl (nm : String) : String :=
  sqs ++ "mock_" ++ toLowerStr nm ++ sqs

/-- `re.sub` scan for the python env-reference alternation of `_test_mock`
(`environ` arm first, then `getenv`). -/
def pySubAux : Nat → List Char → List Char
  | 0, _ => []
  | _, [] => []
  | fuel + 1, c :: rest =>
    match pyEnvIdxMatch (c :: rest) with
    | some (nm, r) => (mockRepl nm).data ++ pySubAux fuel r
    | none =>
      match pyGetenvMatch (c :: rest) with
      | some (nm, r) => (mockRepl nm).data ++ pySubAux fuel r
      | none => c :: pySubAux fuel rest

/-- The python env-reference substitution of `_test_mock`. -/
def mockSubPy (code : String) : String :=
  String.mk (pySubAux code.data.length code.data)

/-- Attempt `process\.env\.(\w+)` at the current position. -/
def jsEnvMatch (cs : List Char) : Option (String × List Char) :=
  match dropLit "process.env.".data cs with
  | none => none
  | some r =>
    let nm := r.takeWhile isWordChar
    if nm.isEmpty then none else some (String.mk nm, r.drop nm.length)

/-- `re.sub` scan for `process\.env\.(\w+)`. -/
def jsSubAux : Nat → List Char → List Char
  | 0, _ => []
  | _, [] => []
  | fuel + 1, c :: rest =>
    match jsEnvMatch (c :: rest) with
    | some (nm, r) => (mockRepl nm).data ++ jsSubAux fuel r
    | none => c :: jsSubAux fuel rest

/-- The javascript env-reference substitution of `_test_mock`. -/
def mockSubJs (code : String) : String :=
  String.mk (jsSubAux code.data.length code.data)

/-- The mock-injected source `_test_mock` hands to `_run`. -/
def injectSS (b : Block) : String :=
  if b.lang == "python" then MOCK_PY ++ mockSubPy b.code
  else if b.lang == "javascript" then MOCK_JS ++ mockSubJs b.code
  else b.code

/-- The L4 candidate set: credential-bearing python/javascript blocks. -/
def apiBlocksOf (blocks : List Block) : List Block :=
  blocks.filter (fun b => b.needsApi && (b.lang == "python" || b.lang == "javascript"))

/-- The execution loop of `_test_mock` over the capped candidate list. -/
def mockLoop (env : Env) : Nat → List Block → ExecAcc
  | _, [] => ⟨[], [], 0⟩
  | i, b :: bs =>
    let res := runRes env b.lang (injectSS b)
    let r := mockLoop env (i + 1) bs
    if res.1 then
      ⟨("✅ [" ++ b.lang ++ "|" ++ tagOf b ++ "] block #" ++ toString (i + 1) ++ ": structure valid with mocks") :: r.details,
       r.errors, r.passed + 1⟩
    else if strHas res.2.2 "SyntaxError" then
      ⟨r.details,
       ("❌ [" ++ b.lang ++ "|" ++ tagOf b ++ "] block #" ++ toString (i + 1) ++ ": syntax error: " ++ strTake res.2.2 100) :: r.errors,
       r.passed⟩
    else
      ⟨("⚠️  [" ++ b.lang ++ "|" ++ tagOf b ++ "] block #" ++ toString (i + 1) ++ ": mock runtime (may be async/class): " ++ strTake res.2.2 80) :: r.details,
       r.errors, r.passed⟩

/-- `SkillTester._test_mock`.  The second component is the list of blocks
actually executed (`api_blocks[:3]`). -/
def testMock (env : Env) (blocks : List Block) : Stage × List Block :=
  let api := apiBlocksOf blocks
  if api.isEmpty then
    ({ name := "TEST_L4_MOCK_API", status := "SKIP",
       details := ["⏭️  No API blocks to mock-test"], errors := [] }, [])
  else
    let execd := api.take 3
    let r := mockLoop env 0 execd
    let score : ℚ := (r.passed : ℚ) / ((max api.length 1 : Nat) : ℚ)
    ({ name := "TEST_L4_MOCK_API",
       status := if (1 : ℚ)/2 ≤ score ∨ r.errors = [] then "PASS" else "PARTIAL",
       details := r.details, errors := r.errors }, execd)

/-! ## `sharpskill.py` — `run_all`, `overall_score`, `AutoFixer`, STAGE 4 -/

/-- `SkillTester.run_all`: extraction then the four levels in order, each
once; the returned rational is the routing score `total_score / 4`. -/
def runAll (env : Env) (content : String) : Except Exc (ℚ × List Stage) :=
  let blocks := extract content
  match testL1 env blocks content with
  | .error e => .error e
  | .ok (s1, _) =>
    let s2 := testDeps env blocks
    let s3 := (testSandbox env blocks).1
    let s4 := (testMock env blocks).1
    let total : ℚ :=
      (if s1.status = "PASS" then 1 else 0)
      + (if s2.status = "PASS" ∨ s2.status = "SKIP" then 1 else 0)
      + (if s3.status = "PASS" ∨ s3.status = "SKIP" then 1
         else if s3.status = "PARTIAL" then 1/2 else 0)
      + (if s4.status = "PASS" ∨ s4.status = "SKIP" then 1
         else if s4.status = "PARTIAL" then 1/2 else 0)
    .ok (total / 4, [s1, s2, s3, s4])

/-- The per-status contribution of `PipelineReport.overall_score`:
the `if/elif` chain appends 1.0 for PASS, 0.9 for SKIP, 0.0 for FAIL and
appends nothing for any other status. -/
def levelScore (st : String) : Option ℚ :=
  if st = "PASS" then some 1
  else if st = "SKIP" then some (9/10)
  else if st = "FAIL" then some 0
  else none

/-- `PipelineReport.overall_score`. -/
def overallScore (stages : List Stage) : ℚ :=
  let ts := stages.filter (fun s => strStarts s.name "TEST")
  if ts = [] then 0
  else
    let scores := ts.filterMap (fun s => levelScore s.status)
    if scores = [] then 0 else scores.sum / (scores.length : ℚ)

/-- `errors = []; for s in report.stages: errors.extend(s.errors)`. -/
def collectErrors (stages : List Stage) : List String :=
  stages.flatMap Stage.errors

/-- The repair prompt of `AutoFixer.fix` (errors capped at 12). -/
def fixPrompt (errors : List String) (content : String) : String :=
  "Fix this SKILL.md to resolve the test failures below.\n\nERRORS:\n"
  ++ joinLines (errors.take 12)
  ++ "\n\nCURRENT SKILL.md:\n" ++ content
  ++ "\n\nRules:\n- Fix ONLY broken code — keep working code unchanged\n- Replace non-existent packages with correct ones\n- Keep YAML frontmatter exactly as is\n- Return ONLY the fixed SKILL.md starting with ---"

/-- `AutoFixer.fix`.  The second component counts the external generation
requests actually made (0 or 1).  A response that does not start with the
`---` marker is not rejected: `---\n` is prepended and the result is
returned. -/
def autoFix (env : Env) (hasKey : Bool) (content : String) (stages : List Stage) :
    Option String × Nat :=
  if !hasKey then (none, 0)
  else
    let errors := collectErrors stages
    if errors.isEmpty then (none, 0)
    else
      match env.claude (fixPrompt errors content) with
      | none => (none, 1)
      | some raw =>
        let t := pyStrip raw
        (some (if strStarts t "---" then t else "---\n" ++ t), 1)

/-- The STAGE-4 `hard_fail` predicate: some stage named L1 or L2 FAILed. -/
def hardFail (stages : List Stage) : Bool :=
  stages.any (fun s =>
    s.status == "FAIL" && (s.name == "TEST_L1_SYNTAX" || s.name == "TEST_L2_DEPS"))

/-- Outcome record of one `MasterPipeline.run` (STAGE 3 onward; the earlier
stages are external I/O whose stage records neither match the `TEST` name
filter of `overall_score` nor the L1/L2 names of `hard_fail`). -/
structure RunOut where
  result : Except Exc String
  stages : List Stage
  runScore : Option ℚ
  fixedContent : Option String
  fixStages : List Stage
  fixCalls : Nat
  events : List Event
deriving DecidableEq, Repr

/-- The extraction and level events of one `run_all` pass. -/
def levelEvents (phase : Nat) (stages : List Stage) : List Event :=
  Event.extractDoc phase :: stages.map (fun s => Event.level phase s.name)

/-- The STAGE-4 decision block of `MasterPipeline.run`, entered with the
first report's routing score and test stages. -/
def masterDecide (env : Env) (content : String) (hasKey push : Bool)
    (score : ℚ) (stages : List Stage) : RunOut :=
  let ev0 := levelEvents 0 stages
  if score ≥ 3/4 ∧ hardFail stages = false then
    { result := .ok "PASS", stages := stages, runScore := some score,
      fixedContent := none, fixStages := [], fixCalls := 0,
      events := ev0 ++ (if push then [Event.pushReq ""] else []) }
  else if hardFail stages = true ∧ hasKey = true then
    let fx := autoFix env hasKey content stages
    let evf := ev0 ++ List.replicate fx.2 Event.fixRequest
    match fx.1 with
    | some fixed =>
      match runAll env fixed with
      | .error e =>
        { result := .error e, stages := stages, runScore := some score,
          fixedContent := some fixed, fixStages := [], fixCalls := fx.2,
          events := evf ++ [Event.extractDoc 1] }
      | .ok (fscore, fstages) =>
        if fscore ≥ 3/4 ∧ hardFail fstages = false then
          { result := .ok "AUTO_FIXED", stages := stages, runScore := some score,
            fixedContent := some fixed, fixStages := fstages, fixCalls := fx.2,
            events := evf ++ levelEvents 1 fstages ++
                      (if push then [Event.pushReq "auto-fixed"] else []) }
        else
          { result := .ok "BETA", stages := stages, runScore := some score,
            fixedContent := some fixed, fixStages := fstages, fixCalls := fx.2,
            events := evf ++ levelEvents 1 fstages ++ [Event.draft] ++
                      (if push then [Event.pushReq "BETA"] else []) }
    | none =>
      { result := .ok "FAIL", stages := stages, runScore := some score,
        fixedContent := none, fixStages := [], fixCalls := fx.2,
        events := evf ++ [Event.draft] }
  else
    { result := .ok "BETA", stages := stages, runScore := some score,
      fixedContent := none, fixStages := [], fixCalls := 0,
      events := ev0 ++ [Event.draft] ++ (if push then [Event.pushReq "BETA"] else []) }

/-- `MasterPipeline.run` from STAGE 3 (testing) onward, for a generated
document `content`.  `hasKey` is the presence of the repair capability
(`ANTHROPIC_API_KEY`); `push` is the push flag. -/
def masterRun (env : Env) (content : String) (hasKey push : Bool) : RunOut :=
  match runAll env content with
  | .error e =>
    { result := .error e, stages := [], runScore := none,
      fixedContent := none, fixStages := [], fixCalls := 0,
      events := [Event.extractDoc 0] }
  | .ok (score, stages) => masterDecide env content hasKey push score stages

end SS

namespace TB

/-! ## `test_bot.py` — `CodeExtractor` -/

/-- The stdlib denylist of `test_bot.py`'s `_extract_packages` (it lacks
`uuid`, unlike `sharpskill.py`'s). -/
def STDLIB_PY : List String :=
  ["os", "sys", "re", "json", "time", "datetime", "pathlib", "typing",
   "hashlib", "base64", "subprocess", "tempfile", "argparse", "math",
   "random", "string", "functools", "itertools", "collections", "io",
   "urllib", "http", "email", "logging", "threading", "asyncio"]

/-- `CodeExtractor.LANG_MAP` of `test_bot.py` (it also maps `dockerfile`). -/
def LANG_MAP (raw : String) : String :=
  if raw == "js" || raw == "javascript" then "javascript"
  else if raw == "ts" || raw == "typescript" then "typescript"
  else if raw == "py" || raw == "python" then "python"
  else if raw == "bash" || raw == "sh" || raw == "shell" then "bash"
  else if raw == "sql" then "sql"
  else if raw == "yaml" || raw == "yml" then "yaml"
  else if raw == "json" then "json"
  else if raw == "dockerfile" then "dockerfile"
  else if raw == "" then "unknown"
  else raw

/-- `CodeExtractor._extract_packages` (JS captures are dropped when they
start with `@types`; set order fixed to first occurrence as in `SS`). -/
def packagesOf (code lang : String) : List String :=
  let pkgs :=
    if lang == "javascript" || lang == "typescript" then
      (jsRequirePkgs code).filter (fun m => !strStarts m "@types")
      ++ (jsFromPkgs code).filter (fun m => !strStarts m "@types")
    else if lang == "python" then
      ((pyImports code).filter (fun p => !STDLIB_PY.contains p)).map dashify
    else []
  (pkgs.dedup).take 10

/-- `CodeExtractor._needs_api` of `test_bot.py` (a longer literal list). -/
def needsApiOf (code : String) : Bool :=
  strHas code "process.env." || strHas code "os.getenv" || strHas code "os.environ" ||
  strHas code "API_KEY" || strHas code "SECRET" || strHas code "TOKEN" ||
  strHas code "PASSWORD" || strHas code ".connect(" || strHas code "stripe." ||
  strHas code "twilio." || strHas code "sendgrid."

/-- One extracted block of `test_bot.py` (no community tag there). -/
structure TBlock where
  lang : String
  code : String
  packages : List String
  needsApi : Bool
deriving DecidableEq, Repr

/-- `CodeExtractor.extract` of `test_bot.py` (minimum body length 10). -/
def extract (content : String) : List TBlock :=
  (rawFences content).filterMap (fun wb =>
    let langRaw := pyStrip (toLowerStr wb.1)
    let code := pyStrip wb.2
    let lang := LANG_MAP langRaw
    if code.data.length < 10 then none
    else
      some { lang := lang, code := code,
             packages := packagesOf code lang,
             needsApi := needsApiOf code })

/-! ## `test_bot.py` — `TestResult` and the four level classes -/

/-- `TestResult`.  `score` is the final value assigned at the end of each
level's `test` method (the transient `max` updates made by `ok()` are
overwritten there); `duration_ms` is omitted. -/
structure TRes where
  level : String
  name : String
  details : List String
  errors : List String
  score : ℚ
deriving DecidableEq, Repr

/-- The `TestResult.status` property. -/
def tStatus (r : TRes) : String :=
  if r.errors = [] then "PASS"
  else if (1 : ℚ)/2 < r.score then "PARTIAL"
  else "FAIL"

/-- Python `str.upper()` (ASCII). -/
def toUpperStr (s : String) : String :=
  String.mk (s.data.map Char.toUpper)

/-- The python group of `SyntaxTester.test`:
`(details, errors, passed, checked codes)`. -/
def l1PyLoop (env : Env) : Nat → List TBlock → List String × List String × Nat × List String
  | _, [] => ([], [], 0, [])
  | i, b :: bs =>
    let r := l1PyLoop env (i + 1) bs
    match env.pyErr b.code with
    | none =>
      (("✅ Python block #" ++ toString (i + 1) ++ ": valid syntax") :: r.1,
       r.2.1, r.2.2.1 + 1, b.code :: r.2.2.2)
    | some (ln, msg) =>
      (r.1,
       ("❌ Python block #" ++ toString (i + 1) ++ ": SyntaxError at line " ++ toString ln ++ ": " ++ msg) :: r.2.1,
       r.2.2.1, b.code :: r.2.2.2)

/-- The javascript group of `SyntaxTester.test`.  `node --check` failures
are truncated after a strip; a missing Node.js is a warning that still
counts as passed; a timeout is a warning that does not. -/
def l1JsLoop (env : Env) : Nat → List TBlock → List String × List String × Nat × List String
  | _, [] => ([], [], 0, [])
  | i, b :: bs =>
    let r := l1JsLoop env (i + 1) bs
    match env.nodeCheck b.code with
    | .completed rc _ err =>
      if rc == 0 then
        (("✅ JS block #" ++ toString (i + 1) ++ ": valid syntax") :: r.1,
         r.2.1, r.2.2.1 + 1, b.code :: r.2.2.2)
      else
        (r.1, ("❌ JS block #" ++ toString (i + 1) ++ ": " ++ strTake (pyStrip err) 200) :: r.2.1,
         r.2.2.1, b.code :: r.2.2.2)
    | .notFound =>
      (("⚠️  Node.js not found — JS syntax check skipped") :: r.1,
       r.2.1, r.2.2.1 + 1, b.code :: r.2.2.2)
    | .timeout =>
      (("⚠️  JS block #" ++ toString (i + 1) ++ ": timeout") :: r.1,
       r.2.1, r.2.2.1, b.code :: r.2.2.2)

/-- The bash group of `SyntaxTester.test`.  Only `FileNotFoundError` is
caught (silently counted as passed); a `TimeoutExpired` escapes. -/
def l1BashLoop (env : Env) : Nat → List TBlock →
    Except Exc (List String × List String × Nat × List String)
  | _, [] => .ok ([], [], 0, [])
  | i, b :: bs =>
    match env.bashCheck b.code with
    | .timeout => .error .timeoutExpired
    | outc =>
      match l1BashLoop env (i + 1) bs with
      | .error e => .error e
      | .ok r =>
        match outc with
        | .completed rc _ err =>
          if rc == 0 then
            .ok (("✅ Bash block #" ++ toString (i + 1) ++ ": valid syntax") :: r.1,
                 r.2.1, r.2.2.1 + 1, b.code :: r.2.2.2)
          else
            .ok (r.1, ("❌ Bash block #" ++ toString (i + 1) ++ ": " ++ strTake (pyStrip err) 150) :: r.2.1,
                 r.2.2.1, b.code :: r.2.2.2)
        | .notFound => .ok (r.1, r.2.1, r.2.2.1 + 1, b.code :: r.2.2.2)
        | .timeout => .error .timeoutExpired

/-- The combined yaml/json group of `SyntaxTester.test` (all exceptions
are caught). -/
def l1YjLoop (env : Env) : Nat → List TBlock → List String × List String × Nat × List String
  | _, [] => ([], [], 0, [])
  | i, b :: bs =>
    let r := l1YjLoop env (i + 1) bs
    let parsed := if b.lang == "json" then env.jsonErr b.code else env.yamlErr b.code
    match parsed with
    | none =>
      (("✅ " ++ toUpperStr b.lang ++ " block #" ++ toString (i + 1) ++ ": valid") :: r.1,
       r.2.1, r.2.2.1 + 1, b.code :: r.2.2.2)
    | some e =>
      (r.1, ("❌ " ++ toUpperStr b.lang ++ " block #" ++ toString (i + 1) ++ ": " ++ e) :: r.2.1,
       r.2.2.1, b.code :: r.2.2.2)

/-- `SyntaxTester.test` (L1).  It receives only the extracted blocks — the
document text and its YAML header are never seen at this level.  The
second component lists the codes of the blocks a check was attempted on. -/
def tbL1 (env : Env) (blocks : List TBlock) : Except Exc (TRes × List String) :=
  if blocks.isEmpty then
    .ok ({ level := "L1", name := "Syntax Check", details := [],
           errors := ["❌ No code blocks found in SKILL.md"], score := 0 }, [])
  else
    let pys := blocks.filter (fun b => b.lang == "python")
    let jss := blocks.filter (fun b => b.lang == "javascript" || b.lang == "typescript")
    let bashs := blocks.filter (fun b => b.lang == "bash")
    let yjs := blocks.filter (fun b => b.lang == "yaml" || b.lang == "json")
    let rp := l1PyLoop env 0 pys
    let rj := l1JsLoop env 0 jss
    match l1BashLoop env 0 bashs with
    | .error e => .error e
    | .ok rb =>
      let ry := l1YjLoop env 0 yjs
      let passed := rp.2.2.1 + rj.2.2.1 + rb.2.2.1 + ry.2.2.1
      .ok ({ level := "L1", name := "Syntax Check",
             details := rp.1 ++ rj.1 ++ rb.1 ++ ry.1,
             errors := rp.2.1 ++ rj.2.1 ++ rb.2.1 ++ ry.2.1,
             score := (passed : ℚ) / ((max blocks.length 1 : Nat) : ℚ) },
            rp.2.2.2 ++ rj.2.2.2 ++ rb.2.2.2 ++ ry.2.2.2)

/-- The npm loop of `DependencyTester.test`. -/
def tbNpmLoop (env : Env) : List String → SS.DepAcc
  | [] => ⟨[], [], 0, 0⟩
  | p :: ps =>
    let r := tbNpmLoop env ps
    match env.npm p with
    | some v => ⟨("✅ npm:" ++ p ++ " exists (" ++ v ++ ")") :: r.details, r.errors,
                 r.passed + 1, r.total + 1⟩
    | none => ⟨r.details, ("❌ npm:" ++ p ++ " — not found in registry") :: r.errors,
               r.passed, r.total + 1⟩

/-- The PyPI loop of `DependencyTester.test`. -/
def tbPypiLoop (env : Env) : List String → SS.DepAcc
  | [] => ⟨[], [], 0, 0⟩
  | p :: ps =>
    let r := tbPypiLoop env ps
    match env.pypi p with
    | some v => ⟨("✅ pip:" ++ p ++ " exists (" ++ v ++ ")") :: r.details, r.errors,
                 r.passed + 1, r.total + 1⟩
    | none => ⟨r.details, ("❌ pip:" ++ p ++ " — not found in PyPI") :: r.errors,
               r.passed, r.total + 1⟩

/-- The npm package set collected by `DependencyTester.test`. -/
def npmPkgsOf (blocks : List TBlock) : List String :=
  ((blocks.filter (fun b => b.lang == "javascript" || b.lang == "typescript")).flatMap
    TBlock.packages).dedup

/-- The PyPI package set collected by `DependencyTester.test`. -/
def pypiPkgsOf (blocks : List TBlock) : List String :=
  ((blocks.filter (fun b => b.lang == "python")).flatMap TBlock.packages).dedup

/-- `DependencyTester.test` (L2).  Note its status is the `TestResult`
property: with errors present but a score above one half it reports
PARTIAL, not FAIL. -/
def tbL2 (env : Env) (blocks : List TBlock) : TRes :=
  let npmPkgs := npmPkgsOf blocks
  let pypiPkgs := pypiPkgsOf blocks
  if npmPkgs.isEmpty && pypiPkgs.isEmpty then
    { level := "L2", name := "Dependencies Check",
      details := ["✅ No external packages detected"], errors := [], score := 1 }
  else
    let rn := tbNpmLoop env npmPkgs
    let rp := tbPypiLoop env pypiPkgs
    { level := "L2", name := "Dependencies Check",
      details := rn.details ++ rp.details,
      errors := rn.errors ++ rp.errors,
      score := ((rn.passed + rp.passed : Nat) : ℚ) /
               ((max (rn.total + rp.total) 1 : Nat) : ℚ) }

/-- `SandboxRunner._run` / `MockApiTester._run_mocked`: `subprocess.run`
with no `try`, so both a missing interpreter and a timeout escape. -/
def tbRunRes (env : Env) (lang code : String) : Except Exc (Bool × String × String) :=
  if lang == "python" || lang == "javascript" || lang == "bash" then
    match env.run lang code with
    | .completed rc out err => .ok (rc == 0, strTake out 300, strTake err 300)
    | .timeout => .error .timeoutExpired
    | .notFound => .error .fileNotFound
  else .ok (true, "", "")

/-- The execution loop of `SandboxRunner.test` over `runnable[:5]`. -/
def tbSandboxLoop (env : Env) : Nat → List TBlock → Except Exc SS.ExecAcc
  | _, [] => .ok ⟨[], [], 0⟩
  | i, b :: bs =>
    match tbRunRes env b.lang b.code with
    | .error e => .error e
    | .ok res =>
      match tbSandboxLoop env (i + 1) bs with
      | .error e => .error e
      | .ok r =>
        if res.1 then
          let okLine := "✅ " ++ toUpperStr b.lang ++ " block #" ++ toString (i + 1) ++ ": executed OK"
          let extra := if res.2.1.isEmpty then [] else ["   Output: " ++ strTake res.2.1 100]
          .ok ⟨okLine :: (extra ++ r.details), r.errors, r.passed + 1⟩
        else if strHas res.2.2 "ModuleNotFoundError" || strHas res.2.2 "Cannot find module" then
          .ok ⟨("⚠️  Block #" ++ toString (i + 1) ++ ": missing package (needs install)") :: r.details,
               r.errors, r.passed⟩
        else if strHas res.2.2 "SyntaxError" then
          .ok ⟨r.details, ("❌ Block #" ++ toString (i + 1) ++ ": syntax error at runtime") :: r.errors,
               r.passed⟩
        else
          .ok ⟨("⚠️  Block #" ++ toString (i + 1) ++ ": runtime error (may need env): " ++ strTake res.2.2 150) :: r.details,
               r.errors, r.passed⟩

/-- The L3 candidate set of `SandboxRunner.test`. -/
def runnableOf (blocks : List TBlock) : List TBlock :=
  blocks.filter (fun b =>
    !b.needsApi && (b.lang == "python" || b.lang == "javascript" || b.lang == "bash"))

/-- `SandboxRunner.test` (L3): at most 5 blocks executed, the score divides
by the full candidate count.  The second component is the executed list. -/
def tbL3 (env : Env) (blocks : List TBlock) : Except Exc (TRes × List TBlock) :=
  let runnable := runnableOf blocks
  if runnable.isEmpty then
    .ok ({ level := "L3", name := "Sandbox Execution",
           details := ["✅ All code blocks require API keys — sandbox skipped"],
           errors := [], score := 8/10 }, [])
  else
    let execd := runnable.take 5
    match tbSandboxLoop env 0 execd with
    | .error e => .error e
    | .ok r =>
      .ok ({ level := "L3", name := "Sandbox Execution",
             details := r.details, errors := r.errors,
             score := (r.passed : ℚ) / ((max runnable.length 1 : Nat) : ℚ) }, execd)

/-! ## `test_bot.py` — `MockApiTester` -/

/-- `MockApiTester.MOCK_MODULES_PY`. -/
def MOCK_MODULES_PY : String :=
  "\n# SharpSkill Mock Layer\nimport sys\nfrom unittest.mock import MagicMock, AsyncMock\n\nclass _MockModule(MagicMock):\n    def __call__(self, *a, **kw): return MagicMock()\n    def __getattr__(self, name): return MagicMock()\n\n# Common packages\nfor _pkg in ["
  ++ SS.quoteJoin ["stripe", "twilio", "sendgrid", "resend", "openai", "anthropic"]
  ++ ",\n             "
  ++ SS.quoteJoin ["neon", "psycopg2", "pymongo", "redis", "boto3", "google.cloud"]
  ++ ",\n             "
  ++ SS.quoteJoin ["langchain", "litellm", "crewai"]
  ++ "]:\n    sys.modules[_pkg] = _MockModule()\n\n"

/-- `MockApiTester.MOCK_MODULES_JS`. -/
def MOCK_MODULES_JS : String :=
  "\n// SharpSkill Mock Layer\nconst _mock = () => new Proxy(\x7b\x7d, \x7b get: () => _mock, apply: () => _mock() \x7d);\nconst require = (pkg) => _mock();\n\n"

/-- Attempt `os\.getenv\(['\"](\w+)['\"](?:,\s*['\"][^'\"]*['\"])?\)` at
the current position (the `test_bot.py` variant of the getenv pattern). -/
def tbGetenvMatch (cs : List Char) : Option (String × List Char) :=
  match dropLit "os.getenv(".data cs with
  | none => none
  | some r =>
    match r with
    | [] => none
    | q :: r2 =>
      if q == sq || q == '"' then
        let nm := r2.takeWhile isWordChar
        if nm.isEmpty then none
        else
          match r2.drop nm.length with
          | [] => none
          | q2 :: r3 =>
            if q2 == sq || q2 == '"' then
              match r3 with
              | ')' :: r4 => some (String.mk nm, r4)
              | ',' :: r4 =>
                let sp := r4.takeWhile isReSpace
                match r4.drop sp.length with
                | q3 :: r5 =>
                  if q3 == sq || q3 == '"' then
                    let body := r5.takeWhile (fun ch => !(ch == sq || ch == '"'))
                    match r5.drop body.length with
                    | q4 :: ')' :: r6 =>
                      if q4 == sq || q4 == '"' then some (String.mk nm, r6) else none
                    | _ => none
                  else none
                | [] => none
              | _ => none
            else none
      else none

/-- One `re.sub` pass replacing every match of a given matcher with the
mock literal for the captured name. -/
def subScan (matcher : List Char → Option (String × List Char)) :
    Nat → List Char → List Char
  | 0, _ => []
  | _, [] => []
  | fuel + 1, c :: rest =>
    match matcher (c :: rest) with
    | some (nm, r) => (SS.mockRepl nm).data ++ subScan matcher fuel r
    | none => c :: subScan matcher fuel rest

/-- Apply one substitution pass to a string. -/
def subPass (matcher : List Char → Option (String × List Char)) (code : String) : String :=
  String.mk (subScan matcher code.data.length code.data)

/-- `MockApiTester._inject_mocks`: the three `MOCKS` patterns are applied
in dict order (`process.env`, then `os.getenv`, then `os.environ`) to any
language, then the language preamble is prepended. -/
def injectTB (code lang : String) : String :=
  let c1 := subPass SS.jsEnvMatch code
  let c2 := subPass tbGetenvMatch c1
  let c3 := subPass SS.pyEnvIdxMatch c2
  if lang == "python" then MOCK_MODULES_PY ++ c3
  else if lang == "javascript" then MOCK_MODULES_JS ++ c3
  else c3

/-- The execution loop of `MockApiTester.test` over `api_blocks[:3]`. -/
def tbMockLoop (env : Env) : Nat → List TBlock → Except Exc SS.ExecAcc
  | _, [] => .ok ⟨[], [], 0⟩
  | i, b :: bs =>
    match tbRunRes env b.lang (injectTB b.code b.lang) with
    | .error e => .error e
    | .ok res =>
      match tbMockLoop env (i + 1) bs with
      | .error e => .error e
      | .ok r =>
        if res.1 then
          .ok ⟨("✅ " ++ toUpperStr b.lang ++ " block #" ++ toString (i + 1) ++ ": structure valid with mocks") :: r.details,
               r.errors, r.passed + 1⟩
        else if strHas res.2.2 "SyntaxError" then
          .ok ⟨r.details, ("❌ Block #" ++ toString (i + 1) ++ ": syntax error: " ++ strTake res.2.2 150) :: r.errors,
               r.passed⟩
        else
          .ok ⟨("⚠️  Block #" ++ toString (i + 1) ++ ": mock runtime issue: " ++ strTake res.2.2 150) :: r.details,
               r.errors, r.passed⟩

/-- The L4 candidate set of `MockApiTester.test`. -/
def apiBlocksOf (blocks : List TBlock) : List TBlock :=
  blocks.filter (fun b => b.needsApi && (b.lang == "python" || b.lang == "javascript"))

/-- `MockApiTester.test` (L4): at most 3 blocks executed, the score divides
by the full candidate count.  The second component is the executed list. -/
def tbL4 (env : Env) (blocks : List TBlock) : Except Exc (TRes × List TBlock) :=
  let api := apiBlocksOf blocks
  if api.isEmpty then
    .ok ({ level := "L4", name := "Mock API Test",
           details := ["✅ No API-dependent blocks — mock test not needed"],
           errors := [], score := 1 }, [])
  else
    let execd := api.take 3
    match tbMockLoop env 0 execd with
    | .error e => .error e
    | .ok r =>
      .ok ({ level := "L4", name := "Mock API Test",
             details := r.details, errors := r.errors,
             score := (r.passed : ℚ) / ((max api.length 1 : Nat) : ℚ) }, execd)

/-! ## `test_bot.py` — `AutoFixer` and `SkillTester.test_skill` -/

/-- The repair prompt of `test_bot.py`'s `AutoFixer.fix` (errors capped at 15). -/
def fixPrompt (errors : List String) (content : String) : String :=
  "You are a code quality expert. Fix the SKILL.md below to resolve these test failures.\n\nERRORS FOUND:\n"
  ++ joinLines (errors.take 15)
  ++ "\n\nCURRENT SKILL.md:\n" ++ content
  ++ "\n\nRules:\n- Keep the same YAML frontmatter structure (name, description, license, metadata)\n- Fix ONLY the broken code blocks\n- Keep working code blocks unchanged\n- Make sure all code examples are syntactically correct\n- Replace non-existent npm/pip packages with correct ones\n- Return ONLY the fixed SKILL.md content, starting with ---"

/-- `test_bot.py`'s `AutoFixer.fix` (its `MAX_ATTEMPTS = 2` constant is
declared but never read).  Second component counts generation requests. -/
def tbFix (env : Env) (hasKey : Bool) (content : String) (results : List TRes) :
    Option String × Nat :=
  if !hasKey then (none, 0)
  else
    let allErrors := results.flatMap TRes.errors
    if allErrors.isEmpty then (none, 0)
    else
      match env.claude (fixPrompt allErrors content) with
      | none => (none, 1)
      | some raw =>
        let t := pyStrip raw
        (some (if strStarts t "---" then t else "---\n" ++ t), 1)

/-- The hard-failure predicate of `test_skill`. -/
def tbHard (results : List TRes) : Bool :=
  results.any (fun r => tStatus r == "FAIL" && (r.level == "L1" || r.level == "L2"))

/-- `SkillTestReport.overall_score`: plain mean of the level scores. -/
def tbScore (results : List TRes) : ℚ :=
  if results.isEmpty then 0
  else (results.map TRes.score).sum / (results.length : ℚ)

/-- Outcome record of one `SkillTester.test_skill` run. -/
structure TbOut where
  result : Except Exc String
  results : List TRes
  runScore : Option ℚ
  fixedContent : Option String
  reL1 : Option TRes
  reL2 : Option TRes
  fixCalls : Nat
  events : List Event
deriving DecidableEq, Repr

/-- The decision tail of `test_skill`, entered once the four level results
exist. -/
def tbDecide (env : Env) (content : String) (hasKey push : Bool)
    (results : List TRes) : TbOut :=
  let score := tbScore results
  let hard := tbHard results
  let ev0 := Event.extractDoc 0 :: results.map (fun r => Event.level 0 r.level)
  if hard = false ∧ score ≥ 7/10 then
    { result := .ok "PASS", results := results, runScore := some score,
      fixedContent := none, reL1 := none, reL2 := none, fixCalls := 0,
      events := ev0 ++ (if push then [Event.pushReq ""] else []) }
  else if hard = true ∧ hasKey = true then
    let fx := tbFix env hasKey content results
    let evf := ev0 ++ List.replicate fx.2 Event.fixRequest
    match fx.1 with
    | some fixed =>
      let fblocks := extract fixed
      match tbL1 env fblocks with
      | .error e =>
        { result := .error e, results := results, runScore := some score,
          fixedContent := some fixed, reL1 := none, reL2 := none, fixCalls := fx.2,
          events := evf ++ [Event.extractDoc 1] }
      | .ok (re1, _) =>
        let re2 := tbL2 env fblocks
        let ev1 := evf ++ [Event.extractDoc 1, Event.level 1 "L1", Event.level 1 "L2"]
        if tStatus re1 ≠ "FAIL" ∧ tStatus re2 ≠ "FAIL" then
          { result := .ok "AUTO_FIXED", results := results, runScore := some score,
            fixedContent := some fixed, reL1 := some re1, reL2 := some re2, fixCalls := fx.2,
            events := ev1 ++ (if push then [Event.pushReq "auto-fixed"] else []) }
        else
          { result := .ok "BETA", results := results, runScore := some score,
            fixedContent := some fixed, reL1 := some re1, reL2 := some re2, fixCalls := fx.2,
            events := ev1 ++ [Event.draft] ++ (if push then [Event.pushReq "BETA"] else []) }
    | none =>
      { result := .ok "FAIL", results := results, runScore := some score,
        fixedContent := none, reL1 := none, reL2 := none, fixCalls := fx.2,
        events := evf ++ [Event.draft] }
  else
    { result := .ok "BETA", results := results, runScore := some score,
      fixedContent := none, reL1 := none, reL2 := none, fixCalls := 0,
      events := ev0 ++ [Event.draft] ++ (if push then [Event.pushReq "BETA"] else []) }

/-- `SkillTester.test_skill` for document text `content` (the file lookup
and printing are external).  Any exception escaping a level aborts the run. -/
def tbRun (env : Env) (content : String) (hasKey push : Bool) : TbOut :=
  let blocks := extract content
  match tbL1 env blocks with
  | .error e =>
    { result := .error e, results := [], runScore := none,
      fixedContent := none, reL1 := none, reL2 := none, fixCalls := 0,
      events := [Event.extractDoc 0] }
  | .ok (r1, _) =>
    let r2 := tbL2 env blocks
    match tbL3 env blocks with
    | .error e =>
      { result := .error e, results := [r1, r2], runScore := none,
        fixedContent := none, reL1 := none, reL2 := none, fixCalls := 0,
        events := [Event.extractDoc 0, Event.level 0 "L1", Event.level 0 "L2"] }
    | .ok (r3, _) =>
      match tbL4 env blocks with
      | .error e =>
        { result := .error e, results := [r1, r2, r3], runScore := none,
          fixedContent := none, reL1 := none, reL2 := none, fixCalls := 0,
          events := [Event.extractDoc 0, Event.level 0 "L1", Event.level 0 "L2",
                     Event.level 0 "L3"] }
      | .ok (r4, _) => tbDecide env content hasKey push [r1, r2, r3, r4]

end TB

/-! ## Spec-modelled comparison definition (for the score-aggregation claim) -/

/-- The per-status value of the amended aggregation claim: PASS = 1.0,
SKIP = 0.9 (strictly between 0.5 and 1.0), FAIL = 0.0; a PARTIAL (or
still-PENDING) level contributes nothing. -/
def specLevelVal (st : String) : Option ℚ :=
  if st = "PASS" then some 1
  else if st = "SKIP" then some (9/10)
  else if st = "FAIL" then some 0
  else none

/-- The amended aggregation: the mean over only those level results whose
status is PASS, SKIP or FAIL; PARTIAL levels are excluded from numerator
and denominator alike, and a report with no qualifying level scores 0. -/
def amendedLevelMean (stages : List SS.Stage) : ℚ :=
  let contribs := stages.filterMap (fun s => specLevelVal s.status)
  if contribs = [] then 0 else contribs.sum / (contribs.length : ℚ)

/-! ## Helper observation functions -/

/-- The level statuses of one `run_all` pass, `none` if an exception escaped. -/
def runStatuses (env : Env) (c : String) : Option (List String) :=
  match SS.runAll env c with
  | Except.ok (_, stages) => some (stages.map SS.Stage.status)
  | Except.error _ => none

/-- The persisted `overall_score` of one `run_all` pass. -/
def runOverall (env : Env) (c : String) : Option ℚ :=
  match SS.runAll env c with
  | Except.ok (_, stages) => some (SS.overallScore stages)
  | Except.error _ => none

/-- Events belonging to the repaired-document phase. -/
def isRetest : Event → Bool
  | Event.extractDoc p => p == 1
  | Event.level p _ => p == 1
  | _ => false

/-- The situations in which (and only in which) `_test_syntax` lets an
exception escape: a bash block whose `bash -n` subprocess hits a missing
interpreter or a timeout, or a javascript/typescript block whose
`node --check` subprocess times out. -/
def escCond (env : Env) (b : SS.Block) (e : Exc) : Prop :=
  (b.lang = "bash" ∧
    (env.bashCheck b.code = Proc.notFound ∧ e = Exc.fileNotFound ∨
     env.bashCheck b.code = Proc.timeout ∧ e = Exc.timeoutExpired)) ∨
  ((b.lang = "javascript" ∨ b.lang = "typescript") ∧
    env.nodeCheck b.code = Proc.timeout ∧ e = Exc.timeoutExpired)

instance (env : Env) (b : SS.Block) (e : Exc) : Decidable (escCond env b e) := by
  unfold escCond
  infer_instance

/-- A subprocess outcome of `SandboxRunner._run` / `MockApiTester._run_mocked`
(`test_bot.py`) that raises: these helpers call `subprocess.run` with no
`try`, so a timeout raises `TimeoutExpired` and a missing interpreter
raises `FileNotFoundError`. -/
def tbRunEsc (env : Env) (lang code : String) (e : Exc) : Prop :=
  env.run lang code = Proc.timeout ∧ e = Exc.timeoutExpired ∨
  env.run lang code = Proc.notFound ∧ e = Exc.fileNotFound

/-- The escape points of `test_bot.py`: every exception that escapes a
`SkillTester.test_skill` run arises at one of these subprocess call sites —
a bash block whose `bash -n` check times out (its L1 catches only
`FileNotFoundError`), an executed L3 sandbox block, an executed L4 mocked
block (both `_run` helpers catch nothing), or the L1 bash re-check of a
repaired document. -/
def tbEscCond (env : Env) (blocks : List TB.TBlock) (fixedContent : Option String)
    (e : Exc) : Prop :=
  (∃ b ∈ blocks, b.lang = "bash" ∧ env.bashCheck b.code = Proc.timeout ∧
     e = Exc.timeoutExpired) ∨
  (∃ b ∈ (TB.runnableOf blocks).take 5, tbRunEsc env b.lang b.code e) ∨
  (∃ b ∈ (TB.apiBlocksOf blocks).take 3,
     tbRunEsc env b.lang (TB.injectTB b.code b.lang) e) ∨
  (∃ fixed, fixedContent = some fixed ∧
     ∃ b ∈ TB.extract fixed, b.lang = "bash" ∧ env.bashCheck b.code = Proc.timeout ∧
       e = Exc.timeoutExpired)

/-! ## Concrete run configurations used by the counterexamples and witnesses -/

/-- Scenario-2 document: its only block imports a package name that the
index confirms absent. -/
def docC1 : String :=
  "---\nname: x\n---\n\n```python\nimport fakepkg\nprint(fakepkg)\n```\n"

/-- Collaborator outcomes for the scenario-2 runs: every parser succeeds,
every index lookup reports absence, the sandbox run of the block fails
with a missing-module error, no repair service. -/
def envC1 : Env :=
  { yamlErr := fun _ => none,
    pyErr := fun _ => none,
    nodeCheck := fun _ => Proc.completed 0 "" "",
    bashCheck := fun _ => Proc.completed 0 "" "",
    jsonErr := fun _ => none,
    npm := fun _ => none,
    pypi := fun _ => none,
    run := fun _ _ => Proc.completed 1 "" "ModuleNotFoundError: no module named fakepkg",
    claude := fun _ => none }

/-- Like `envC1` but with a repair service that returns a candidate (still
importing the absent package, so the re-test hard-fails again). -/
def envFix : Env :=
  { envC1 with
    claude := fun _ =>
      some "---\nname: y\n---\n\n```python\nimport fakepkg\nprint(fakepkg)\n```\n" }

/-- The (stripped) repaired text `envFix`'s service returns. -/
def fixedC2 : String :=
  "---\nname: y\n---\n\n```python\nimport fakepkg\nprint(fakepkg)\n```"

/-- Document with three inferred python packages. -/
def docC3 : String :=
  "```python\nimport numpy\nimport pandas\nimport fakepkg\nprint(1)\n```\n"

/-- Index outcomes where exactly `fakepkg` is absent. -/
def envC3 : Env :=
  { envC1 with pypi := fun p => if p == "fakepkg" then none else some "1.0" }

/-- Document with one inferred npm package. -/
def docC3n : String :=
  "```javascript\nconst s = require(\"leftpady\")\nconsole.log(s)\n```\n"

/-- Document with a present but malformed YAML header and one valid python
block. -/
def docC5 : String :=
  "---\n: bad\n---\n\n```python\nprint(\"hello\")\n```\n"

/-- Collaborator outcomes marking that header as invalid YAML. -/
def envC5 : Env :=
  { envC1 with
    yamlErr := fun s =>
      if s == ": bad" then some "mapping values are not allowed here" else none }

/-- Document with one plain python block and one credential-bearing block. -/
def docC6 : String :=
  "```python\nx = 1\nprint(x + 1)\n```\n\n```python\nkey = \"API_KEY\"\nclient.connect(key)\n```\n"

/-- Outcomes for run A of the aggregation counterexample: the sandbox run
of the plain block surfaces a runtime `SyntaxError`, the mocked run of the
credential block succeeds; statuses `[PASS, SKIP, PARTIAL, PASS]`. -/
def envC6A : Env :=
  { envC1 with
    run := fun _ code =>
      if strHas code "API_KEY" then Proc.completed 0 "" ""
      else Proc.completed 1 "" "SyntaxError: bad" }

/-- Outcomes for run B: additionally the plain block fails to parse, so L1
FAILs; statuses `[FAIL, SKIP, PARTIAL, PASS]`. -/
def envC6B : Env :=
  { envC6A with
    pyErr := fun code => if strHas code "print" then some (1, "bad") else none }

/-- The level stages of run A. -/
def stagesC6A : List SS.Stage :=
  match SS.runAll envC6A docC6 with
  | Except.ok (_, stages) => stages
  | Except.error _ => []

/-- A repair service that answers with text lacking the `---` marker. -/
def envC7 : Env :=
  { envC1 with claude := fun _ => some "hello" }

/-- A failing stage, used to give the repair component a nonempty error
list. -/
def stageE : SS.Stage :=
  { name := "TEST_L2_DEPS", status := "FAIL", details := [], errors := ["e"] }

/-- A failing `test_bot.py` level result with a nonempty error list. -/
def tresE : TB.TRes :=
  { level := "L2", name := "Dependencies Check", details := [], errors := ["e"], score := 0 }

/-- Document whose only block is bash. -/
def docC8 : String :=
  "```bash\necho hello world there\n```\n"

/-- Collaborator outcomes where the bash interpreter is missing. -/
def envC8 : Env :=
  { envC1 with bashCheck := fun _ => Proc.notFound }

/-- Like `envC8` but every sandbox subprocess also reports the missing
interpreter: `test_bot.py` then survives the bash check at L1 (its L1
catches `FileNotFoundError`) yet crashes at L3. -/
def envC8tb : Env :=
  { envC8 with run := fun _ _ => Proc.notFound }

/-- A plain runnable python block for the cap witness. -/
def blkP (s : String) : TB.TBlock :=
  { lang := "python", code := s, packages := [], needsApi := false }

/-- A credential-bearing python block for the cap witness. -/
def blkA (s : String) : TB.TBlock :=
  { lang := "python", code := s, packages := [], needsApi := true }

/-- Six L3 candidates and four L4 candidates. -/
def blocksC9 : List TB.TBlock :=
  [blkP "a", blkP "b", blkP "c", blkP "d", blkP "e", blkP "f",
   blkA "g", blkA "h", blkA "i", blkA "j"]

/-- Outcomes where every executed block succeeds. -/
def envC9 : Env :=
  { envC1 with run := fun _ _ => Proc.completed 0 "ok" "" }

/-- The L3 result of the cap witness run. -/
def tbL3C9 : TB.TRes :=
  match TB.tbL3 envC9 blocksC9 with
  | Except.ok (r, _) => r
  | Except.error _ => { level := "", name := "", details := [], errors := [], score := 0 }

/-- The L4 result of the cap witness run. -/
def tbL4C9 : TB.TRes :=
  match TB.tbL4 envC9 blocksC9 with
  | Except.ok (r, _) => r
  | Except.error _ => { level := "", name := "", details := [], errors := [], score := 0 }

/-! ## Helper lemmas -/

lemma masterDecide_stages (env : Env) (c : String) (k p : Bool) (q : ℚ)
    (st : List SS.Stage) : (SS.masterDecide env c k p q st).stages = st := by
  unfold SS.masterDecide
  repeat' first
    | rfl
    | ((try dsimp only); split)

lemma tbDecide_results (env : Env) (c : String) (k p : Bool)
    (rs : List TB.TRes) : (TB.tbDecide env c k p rs).results = rs := by
  unfold TB.tbDecide
  repeat' first
    | rfl
    | ((try dsimp only); split)

/-! ## Claim C5 -/

/-- C5 (amended, `sharpskill.py` half): when the document has a YAML header
that fails to parse, `_test_syntax` returns a FAIL stage carrying only the
header error, with no block-level syntax check performed, independent of
the block list. -/
theorem c5_header_fail_stops_l1 (env : Env) (blocks : List SS.Block)
    (content fm msg : String)
    (hfm : SS.frontmatter content = some fm)
    (hbad : env.yamlErr fm = some msg) :
    SS.testL1 env blocks content =
      Except.ok ({ name := "TEST_L1_SYNTAX", status := "FAIL", details := [],
                   errors := ["❌ YAML front matter invalid: " ++ strTake msg 150] },
                 []) := by
  unfold SS.testL1
  rw [hfm]
  dsimp only
  rw [hbad]

/-- C5 witness: the malformed-header document, concretely. -/
theorem c5_header_fail_stops_l1_witness :
    SS.frontmatter docC5 = some ": bad" ∧
    envC5.yamlErr ": bad" = some "mapping values are not allowed here" ∧
    SS.testL1 envC5 (SS.extract docC5) docC5 =
      Except.ok ({ name := "TEST_L1_SYNTAX", status := "FAIL", details := [],
                   errors := ["❌ YAML front matter invalid: " ++
                              strTake "mapping values are not allowed here" 150] },
                 []) :=
  ⟨by decide, by decide,
   c5_header_fail_stops_l1 envC5 (SS.extract docC5) docC5 ": bad"
     "mapping values are not allowed here" (by decide) (by decide)⟩

/-- C5 counterexample: the same malformed-header document run through
`test_bot.py`'s L1 (`SyntaxTester.test`), which never sees the header: the
level reports PASS after syntax-checking the block, not an immediate FAIL
with no block checks. -/
theorem c5_counterexample :
    SS.frontmatter docC5 = some ": bad" ∧
    envC5.yamlErr ": bad" = some "mapping values are not allowed here" ∧
    (TB.tbL1 envC5 (TB.extract docC5)).map
        (fun p => (TB.tStatus p.1, p.2)) =
      Except.ok ("PASS", ["print(\"hello\")"]) := by
  refine ⟨by decide, by decide, by decide⟩

/-! ## Claim C7 -/

/-- C7 (amended): an accepted repair result always begins with `---`, but a
candidate lacking the marker is not rejected — `AutoFixer.fix` prepends
`---\n` and accepts it (both implementations). -/
theorem c7_marker_prepended_not_rejected :
    (∀ (env : Env) (k : Bool) (c : String) (stages : List SS.Stage) (t : String),
      (SS.autoFix env k c stages).1 = some t → strStarts t "---" = true) ∧
    (∀ (env : Env) (c : String) (stages : List SS.Stage) (raw : String),
      env.claude (SS.fixPrompt (SS.collectErrors stages) c) = some raw →
      SS.collectErrors stages ≠ [] →
      strStarts (pyStrip raw) "---" = false →
      (SS.autoFix env true c stages).1 = some ("---\n" ++ pyStrip raw)) ∧
    (∀ (env : Env) (k : Bool) (c : String) (results : List TB.TRes) (t : String),
      (TB.tbFix env k c results).1 = some t → strStarts t "---" = true) := by
  refine ⟨?_, ?_, ?_⟩
  · intro env k c stages t h
    unfold SS.autoFix at h
    split at h
    · simp at h
    · dsimp only at h
      split at h
      · simp at h
      · split at h
        · simp at h
        · dsimp only at h
          simp only [Option.some.injEq] at h
          subst h
          split
          · assumption
          · simp [strStarts, String.data_append, startsWithL]
  · intro env c stages raw hresp hne hnost
    unfold SS.autoFix
    simp only [Bool.not_true, if_false, Bool.false_eq_true, ite_false]
    rw [if_neg (by simpa using hne), hresp]
    simp [hnost]
  · intro env k c results t h
    unfold TB.tbFix at h
    split at h
    · simp at h
    · dsimp only at h
      split at h
      · simp at h
      · split at h
        · simp at h
        · dsimp only at h
          simp only [Option.some.injEq] at h
          subst h
          split
          · assumption
          · simp [strStarts, String.data_append, startsWithL]

/-- C7 witness: a concrete repair result `"hello"` without the marker. -/
theorem c7_marker_prepended_not_rejected_witness :
    (SS.autoFix envC7 true "doc" [stageE]).1 = some ("---\n" ++ pyStrip "hello") ∧
    strStarts ("---\n" ++ pyStrip "hello") "---" = true :=
  ⟨c7_marker_prepended_not_rejected.2.1 envC7 "doc" [stageE] "hello"
     (by decide) (by decide) (by decide),
   c7_marker_prepended_not_rejected.1 envC7 true "doc" [stageE] _
     (c7_marker_prepended_not_rejected.2.1 envC7 "doc" [stageE] "hello"
       (by decide) (by decide) (by decide))⟩

/-- C7 counterexample: the claim says a repair result that does not begin
with the opening marker is rejected (never accepted); here such a result
is accepted, with the marker prepended, by both implementations. -/
theorem c7_counterexample :
    envC7.claude (SS.fixPrompt (SS.collectErrors [stageE]) "doc") = some "hello" ∧
    strStarts (pyStrip "hello") "---" = false ∧
    (SS.autoFix envC7 true "doc" [stageE]).1 = some "---\nhello" ∧
    (TB.tbFix envC7 true "doc" [tresE]).1 = some "---\nhello" := by
  refine ⟨by decide, by decide, by decide, by decide⟩

/-! ## Claim C8 -/

lemma l1Check_error_cond (env : Env) (lang code : String) (e : Exc)
    (h : SS.l1Check env lang code = Except.error e) :
    (lang = "bash" ∧ (env.bashCheck code = Proc.notFound ∧ e = Exc.fileNotFound ∨
                      env.bashCheck code = Proc.timeout ∧ e = Exc.timeoutExpired)) ∨
    ((lang = "javascript" ∨ lang = "typescript") ∧
      env.nodeCheck code = Proc.timeout ∧ e = Exc.timeoutExpired) := by
  unfold SS.l1Check at h
  split_ifs at h with hpy hjs hbash hyaml hjson <;>
    (try split at h) <;> simp_all

lemma l1Loop_error (env : Env) (e : Exc) :
    ∀ (i : Nat) (bs : List SS.Block), SS.l1Loop env i bs = Except.error e →
      ∃ b ∈ bs, escCond env b e := by
  intro i bs
  induction bs generalizing i with
  | nil => intro h; simp [SS.l1Loop] at h
  | cons b bs ih =>
    intro h
    unfold SS.l1Loop at h
    split at h
    · rename_i e' heq
      injection h with h'
      subst h'
      exact ⟨b, List.mem_cons_self b bs,
             by unfold escCond; exact l1Check_error_cond env b.lang b.code _ heq⟩
    · split at h
      · rename_i e' heq
        injection h with h'
        subst h'
        obtain ⟨b', hb', hc⟩ := ih (i + 1) heq
        exact ⟨b', List.mem_cons_of_mem b hb', hc⟩
      · split at h <;> simp at h

lemma testL1Blocks_error (env : Env) (blocks : List SS.Block) (logs : List String)
    (e : Exc) (h : SS.testL1Blocks env blocks logs = Except.error e) :
    ∃ b ∈ blocks, escCond env b e := by
  unfold SS.testL1Blocks at h
  split at h
  · simp at h
  · split at h
    · rename_i e' heq
      injection h with h'
      subst h'
      exact l1Loop_error env _ 0 blocks heq
    · simp at h

lemma testL1_error (env : Env) (blocks : List SS.Block) (content : String) (e : Exc)
    (h : SS.testL1 env blocks content = Except.error e) :
    ∃ b ∈ blocks, escCond env b e := by
  unfold SS.testL1 at h
  split at h
  · split at h
    · simp at h
    · exact testL1Blocks_error env blocks _ e h
  · exact testL1Blocks_error env blocks _ e h

lemma tbRunRes_error (env : Env) (lang code : String) (e : Exc)
    (h : TB.tbRunRes env lang code = Except.error e) : tbRunEsc env lang code e := by
  unfold TB.tbRunRes at h
  unfold tbRunEsc
  split_ifs at h
  cases hr : env.run lang code with
  | completed rc out err => rw [hr] at h; dsimp only at h; simp at h
  | timeout =>
    rw [hr] at h
    dsimp only at h
    injection h with h2
    exact Or.inl ⟨rfl, h2.symm⟩
  | notFound =>
    rw [hr] at h
    dsimp only at h
    injection h with h2
    exact Or.inr ⟨rfl, h2.symm⟩

lemma tb_l1BashLoop_error (env : Env) (e : Exc) :
    ∀ (i : Nat) (bs : List TB.TBlock), TB.l1BashLoop env i bs = Except.error e →
      ∃ b ∈ bs, env.bashCheck b.code = Proc.timeout ∧ e = Exc.timeoutExpired := by
  intro i bs
  induction bs generalizing i with
  | nil => intro h; simp [TB.l1BashLoop] at h
  | cons b bs ih =>
    intro h
    unfold TB.l1BashLoop at h
    cases hbc : env.bashCheck b.code with
    | timeout =>
      rw [hbc] at h
      dsimp only at h
      injection h with h2
      exact ⟨b, List.mem_cons_self b bs, hbc, h2.symm⟩
    | notFound =>
      rw [hbc] at h
      dsimp only at h
      cases hrec : TB.l1BashLoop env (i + 1) bs with
      | error e0 =>
        rw [hrec] at h
        dsimp only at h
        injection h with h2
        subst h2
        obtain ⟨b2, hb2, hc⟩ := ih (i + 1) hrec
        exact ⟨b2, List.mem_cons_of_mem b hb2, hc⟩
      | ok r =>
        rw [hrec] at h
        dsimp only at h
        simp at h
    | completed rc out err =>
      rw [hbc] at h
      dsimp only at h
      cases hrec : TB.l1BashLoop env (i + 1) bs with
      | error e0 =>
        rw [hrec] at h
        dsimp only at h
        injection h with h2
        subst h2
        obtain ⟨b2, hb2, hc⟩ := ih (i + 1) hrec
        exact ⟨b2, List.mem_cons_of_mem b hb2, hc⟩
      | ok r =>
        rw [hrec] at h
        dsimp only at h
        split_ifs at h

lemma tbL1_error (env : Env) (blocks : List TB.TBlock) (e : Exc)
    (h : TB.tbL1 env blocks = Except.error e) :
    ∃ b ∈ blocks, b.lang = "bash" ∧ env.bashCheck b.code = Proc.timeout ∧
      e = Exc.timeoutExpired := by
  unfold TB.tbL1 at h
  dsimp only at h
  split_ifs at h
  split at h
  · rename_i e0 heq
    injection h with h2
    subst h2
    obtain ⟨b, hb, hc⟩ := tb_l1BashLoop_error env _ 0 _ heq
    have hb2 := List.mem_filter.mp hb
    exact ⟨b, hb2.1, by simpa using hb2.2, hc⟩
  · simp at h

lemma tbSandboxLoop_error (env : Env) (e : Exc) :
    ∀ (i : Nat) (bs : List TB.TBlock), TB.tbSandboxLoop env i bs = Except.error e →
      ∃ b ∈ bs, tbRunEsc env b.lang b.code e := by
  intro i bs
  induction bs generalizing i with
  | nil => intro h; simp [TB.tbSandboxLoop] at h
  | cons b bs ih =>
    intro h
    unfold TB.tbSandboxLoop at h
    split at h
    · rename_i e0 heq
      injection h with h2
      subst h2
      exact ⟨b, List.mem_cons_self b bs, tbRunRes_error env b.lang b.code _ heq⟩
    · split at h
      · rename_i e0 heq
        injection h with h2
        subst h2
        obtain ⟨b2, hb2, hc⟩ := ih (i + 1) heq
        exact ⟨b2, List.mem_cons_of_mem b hb2, hc⟩
      · dsimp only at h
        split_ifs at h

lemma tbMockLoop_error (env : Env) (e : Exc) :
    ∀ (i : Nat) (bs : List TB.TBlock), TB.tbMockLoop env i bs = Except.error e →
      ∃ b ∈ bs, tbRunEsc env b.lang (TB.injectTB b.code b.lang) e := by
  intro i bs
  induction bs generalizing i with
  | nil => intro h; simp [TB.tbMockLoop] at h
  | cons b bs ih =>
    intro h
    unfold TB.tbMockLoop at h
    split at h
    · rename_i e0 heq
      injection h with h2
      subst h2
      exact ⟨b, List.mem_cons_self b bs,
             tbRunRes_error env b.lang (TB.injectTB b.code b.lang) _ heq⟩
    · split at h
      · rename_i e0 heq
        injection h with h2
        subst h2
        obtain ⟨b2, hb2, hc⟩ := ih (i + 1) heq
        exact ⟨b2, List.mem_cons_of_mem b hb2, hc⟩
      · split_ifs at h

lemma tbL3_error (env : Env) (blocks : List TB.TBlock) (e : Exc)
    (h : TB.tbL3 env blocks = Except.error e) :
    ∃ b ∈ (TB.runnableOf blocks).take 5, tbRunEsc env b.lang b.code e := by
  unfold TB.tbL3 at h
  dsimp only at h
  split_ifs at h
  split at h
  · rename_i e0 heq
    injection h with h2
    subst h2
    exact tbSandboxLoop_error env _ 0 _ heq
  · simp at h

lemma tbL4_error (env : Env) (blocks : List TB.TBlock) (e : Exc)
    (h : TB.tbL4 env blocks = Except.error e) :
    ∃ b ∈ (TB.apiBlocksOf blocks).take 3,
      tbRunEsc env b.lang (TB.injectTB b.code b.lang) e := by
  unfold TB.tbL4 at h
  dsimp only at h
  split_ifs at h
  split at h
  · rename_i e0 heq
    injection h with h2
    subst h2
    exact tbMockLoop_error env _ 0 _ heq
  · simp at h

lemma tbDecide_error (env : Env) (c : String) (hk p : Bool) (rs : List TB.TRes)
    (e : Exc) (h : (TB.tbDecide env c hk p rs).result = Except.error e) :
    ∃ fixed, (TB.tbDecide env c hk p rs).fixedContent = some fixed ∧
      ∃ b ∈ TB.extract fixed, b.lang = "bash" ∧
        env.bashCheck b.code = Proc.timeout ∧ e = Exc.timeoutExpired := by
  unfold TB.tbDecide at h ⊢
  dsimp only at h ⊢
  by_cases h1 : TB.tbHard rs = false ∧ TB.tbScore rs ≥ 7/10
  · rw [if_pos h1] at h
    dsimp only at h
    simp at h
  · rw [if_neg h1] at h ⊢
    by_cases h2 : TB.tbHard rs = true ∧ hk = true
    · rw [if_pos h2] at h ⊢
      cases hfx : (TB.tbFix env hk c rs).1 with
      | none =>
        rw [hfx] at h
        dsimp only at h
        simp at h
      | some fixed =>
        rw [hfx] at h
        simp only [] at h
        simp only []
        cases h3 : TB.tbL1 env (TB.extract fixed) with
        | error e0 =>
          rw [h3] at h
          simp only [] at h
          simp only []
          injection h with h4
          subst h4
          exact ⟨fixed, rfl, tbL1_error env (TB.extract fixed) _ h3⟩
        | ok v =>
          obtain ⟨re1, ls⟩ := v
          rw [h3] at h
          simp only [] at h
          by_cases h5 : TB.tStatus re1 ≠ "FAIL" ∧
              TB.tStatus (TB.tbL2 env (TB.extract fixed)) ≠ "FAIL"
          · rw [if_pos h5] at h
            dsimp only at h
            simp at h
          · rw [if_neg h5] at h
            dsimp only at h
            simp at h
    · rw [if_neg h2] at h
      dsimp only at h
      simp at h

lemma tbRun_error (env : Env) (c : String) (hk p : Bool) (e : Exc)
    (h : (TB.tbRun env c hk p).result = Except.error e) :
    tbEscCond env (TB.extract c) (TB.tbRun env c hk p).fixedContent e := by
  unfold TB.tbRun at h ⊢
  dsimp only at h ⊢
  cases h1 : TB.tbL1 env (TB.extract c) with
  | error e0 =>
    rw [h1] at h
    simp only [] at h
    injection h with h2
    subst h2
    exact Or.inl (tbL1_error env (TB.extract c) _ h1)
  | ok v =>
    obtain ⟨r1, ls⟩ := v
    rw [h1] at h
    simp only [] at h
    simp only []
    cases h3 : TB.tbL3 env (TB.extract c) with
    | error e0 =>
      rw [h3] at h
      simp only [] at h
      injection h with h2
      subst h2
      exact Or.inr (Or.inl (tbL3_error env (TB.extract c) _ h3))
    | ok v3 =>
      obtain ⟨r3, l3⟩ := v3
      rw [h3] at h
      simp only [] at h
      simp only []
      cases h4 : TB.tbL4 env (TB.extract c) with
      | error e0 =>
        rw [h4] at h
        simp only [] at h
        injection h with h2
        subst h2
        exact Or.inr (Or.inr (Or.inl (tbL4_error env (TB.extract c) _ h4)))
      | ok v4 =>
        obtain ⟨r4, l4⟩ := v4
        rw [h4] at h
        simp only [] at h
        simp only []
        exact Or.inr (Or.inr (Or.inr (tbDecide_error env c hk p _ e h)))

/-- C8 (amended): the stated no-exception policy fails in both
implementations, at identified subprocess call sites, and nowhere else.
In `sharpskill.py`, L2-L4 always return their result stage and an
exception escapes `run_all` only through L1's subprocess syntax checks: a
bash block whose `bash -n` hits a missing interpreter or a timeout, or a
javascript/typescript block whose `node --check` times out.  In
`test_bot.py`, L2 always returns its result object, but an exception
escapes `test_skill` only through L1's bash check timing out (its bash
branch catches only `FileNotFoundError` — on the first pass or on the
re-test of a repaired document), an executed L3 sandbox block, or an
executed L4 mocked block: `SandboxRunner._run` and
`MockApiTester._run_mocked` wrap `subprocess.run` in no `try`, so both a
timeout and a missing interpreter escape there. -/
theorem c8_escape_only_through_l1 :
    (∀ (env : Env) (c : String) (e : Exc),
        SS.runAll env c = Except.error e →
        ∃ b ∈ SS.extract c, escCond env b e) ∧
    (∀ (env : Env) (c : String) (hasKey push : Bool) (e : Exc),
        (TB.tbRun env c hasKey push).result = Except.error e →
        tbEscCond env (TB.extract c) (TB.tbRun env c hasKey push).fixedContent e) := by
  constructor
  · intro env c e h
    unfold SS.runAll at h
    dsimp only at h
    split at h
    · rename_i e' heq
      injection h with h'
      subst h'
      exact testL1_error env (SS.extract c) c _ heq
    · simp at h
  · intro env c hk p e h
    exact tbRun_error env c hk p e h

/-- C8 witness: in the missing-bash-interpreter runs, the sharpskill escape
condition is realized by the bash block at L1, and the test-bot escape
condition by the same block executed at L3. -/
theorem c8_escape_only_through_l1_witness :
    (∃ b ∈ SS.extract docC8, escCond envC8 b Exc.fileNotFound) ∧
    tbEscCond envC8tb (TB.extract docC8)
      (TB.tbRun envC8tb docC8 false true).fixedContent Exc.fileNotFound :=
  ⟨c8_escape_only_through_l1.1 envC8 docC8 Exc.fileNotFound (by decide),
   c8_escape_only_through_l1.2 envC8tb docC8 false true Exc.fileNotFound (by decide)⟩

/-- C8 counterexample: with the bash interpreter missing, the
`FileNotFoundError` of `_syntax_check` escapes `run_all` and crashes
`MasterPipeline.run` at L1; and in `test_bot.py`, whose L1 catches that
error, the same missing interpreter makes `SandboxRunner._run` raise at
L3 and crash `test_skill` — in each pipeline a level function fails to
return a result object, refuting the claim that no exception escapes a
validation-stage boundary. -/
theorem c8_counterexample :
    SS.runAll envC8 docC8 = Except.error Exc.fileNotFound ∧
    (SS.masterRun envC8 docC8 false true).result = Except.error Exc.fileNotFound ∧
    (TB.tbRun envC8tb docC8 false true).result = Except.error Exc.fileNotFound := by
  refine ⟨by decide, by decide, by decide⟩

/-! ## Claim C10 -/

lemma dashify_no_underscore (s : String) : '_' ∉ (dashify s).data := by
  intro hmem
  unfold dashify at hmem
  dsimp only at hmem
  obtain ⟨a, -, ha⟩ := List.mem_map.mp hmem
  by_cases h : a = '_'
  · rw [if_pos (by simpa using h)] at ha
    exact absurd ha (by decide)
  · rw [if_neg (by simpa using h)] at ha
    exact h ha

lemma ss_packagesOf_python (code : String) :
    SS.packagesOf code "python" =
      (((((pyImports code).filter (fun p => !SS.STDLIB_PY.contains p)).map dashify)).dedup).take 10 :=
  rfl

lemma tb_packagesOf_python (code : String) :
    TB.packagesOf code "python" =
      (((((pyImports code).filter (fun p => !TB.STDLIB_PY.contains p)).map dashify)).dedup).take 10 :=
  rfl

/-- C10 (confirmed): for python blocks (in both implementations) every
inferred external package name has each underscore replaced by a hyphen
before the index lookup — no retained name contains an underscore, and
`import my_pkg` is looked up as `my-pkg` — and per block at most 10
deduplicated names are retained. -/
theorem c10_underscore_to_hyphen_and_cap :
    (∀ (code p : String), p ∈ SS.packagesOf code "python" → '_' ∉ p.data) ∧
    (∀ (code p : String), p ∈ TB.packagesOf code "python" → '_' ∉ p.data) ∧
    (∀ (code lang : String),
      (SS.packagesOf code lang).length ≤ 10 ∧ (SS.packagesOf code lang).Nodup ∧
      (TB.packagesOf code lang).length ≤ 10 ∧ (TB.packagesOf code lang).Nodup) ∧
    SS.packagesOf "import my_pkg\nmy_pkg.go()" "python" = ["my-pkg"] ∧
    TB.packagesOf "import my_pkg\nmy_pkg.go()" "python" = ["my-pkg"] := by
  refine ⟨?_, ?_, ?_, by decide, by decide⟩
  · intro code p hp
    rw [ss_packagesOf_python] at hp
    obtain ⟨s, -, rfl⟩ := List.mem_map.mp (List.mem_dedup.mp (List.mem_of_mem_take hp))
    exact dashify_no_underscore s
  · intro code p hp
    rw [tb_packagesOf_python] at hp
    obtain ⟨s, -, rfl⟩ := List.mem_map.mp (List.mem_dedup.mp (List.mem_of_mem_take hp))
    exact dashify_no_underscore s
  · intro code lang
    refine ⟨?_, ?_, ?_, ?_⟩
    · exact List.length_take_le _ _
    · exact ((List.take_sublist _ _).nodup (List.nodup_dedup _))
    · exact List.length_take_le _ _
    · exact ((List.take_sublist _ _).nodup (List.nodup_dedup _))

/-- C10 witness: the normalization facts instantiated on `import my_pkg`. -/
theorem c10_underscore_to_hyphen_and_cap_witness :
    ('_' ∉ "my-pkg".data) ∧ ('_' ∉ "my-pkg".data) :=
  ⟨c10_underscore_to_hyphen_and_cap.1 "import my_pkg\nmy_pkg.go()" "my-pkg" (by decide),
   c10_underscore_to_hyphen_and_cap.2.1 "import my_pkg\nmy_pkg.go()" "my-pkg" (by decide)⟩

/-! ## Claim C3 -/

lemma ss_pypiLoop_err_mem (env : Env) (p : String) :
    ∀ ps : List String, p ∈ ps → env.pypi p = none →
      ("❌ pip:" ++ p ++ " — not found") ∈ (SS.pypiLoop env ps).errors := by
  intro ps
  induction ps with
  | nil => intro h; simp at h
  | cons q ps ih =>
    intro hmem habs
    rcases List.mem_cons.mp hmem with rfl | hmem'
    · simp [SS.pypiLoop, habs]
    · have ih' := ih hmem' habs
      cases hq : env.pypi q <;> simp [SS.pypiLoop, hq, List.mem_cons, ih']

lemma ss_npmLoop_err_mem (env : Env) (p : String) :
    ∀ ps : List String, p ∈ ps → env.npm p = none →
      ("❌ npm:" ++ p ++ " — not found (wrong package name?)") ∈ (SS.npmLoop env ps).errors := by
  intro ps
  induction ps with
  | nil => intro h; simp at h
  | cons q ps ih =>
    intro hmem habs
    rcases List.mem_cons.mp hmem with rfl | hmem'
    · simp [SS.npmLoop, habs]
    · have ih' := ih hmem' habs
      cases hq : env.npm q <;> simp [SS.npmLoop, hq, List.mem_cons, ih']

lemma tb_pypiLoop_err_mem (env : Env) (p : String) :
    ∀ ps : List String, p ∈ ps → env.pypi p = none →
      ("❌ pip:" ++ p ++ " — not found in PyPI") ∈ (TB.tbPypiLoop env ps).errors := by
  intro ps
  induction ps with
  | nil => intro h; simp at h
  | cons q ps ih =>
    intro hmem habs
    rcases List.mem_cons.mp hmem with rfl | hmem'
    · simp [TB.tbPypiLoop, habs]
    · have ih' := ih hmem' habs
      cases hq : env.pypi q <;> simp [TB.tbPypiLoop, hq, List.mem_cons, ih']

/-- C3 (amended): every package the index confirms absent appears verbatim
in the level's failure notes in both implementations, and the level never
reports PASS; in `sharpskill.py` the status is always FAIL, while in
`test_bot.py` the `TestResult.status` property can also yield PARTIAL
(when the lookup score exceeds one half). -/
theorem c3_absent_package_in_notes :
    (∀ (env : Env) (blocks : List SS.Block) (p : String),
      p ∈ SS.pypiPkgsOf blocks → env.pypi p = none →
      (SS.testDeps env blocks).status = "FAIL" ∧
      ("❌ pip:" ++ p ++ " — not found") ∈ (SS.testDeps env blocks).errors) ∧
    (∀ (env : Env) (blocks : List SS.Block) (p : String),
      p ∈ SS.npmPkgsOf blocks → env.npm p = none →
      (SS.testDeps env blocks).status = "FAIL" ∧
      ("❌ npm:" ++ p ++ " — not found (wrong package name?)") ∈ (SS.testDeps env blocks).errors) ∧
    (∀ (env : Env) (blocks : List TB.TBlock) (p : String),
      p ∈ TB.pypiPkgsOf blocks → env.pypi p = none →
      ("❌ pip:" ++ p ++ " — not found in PyPI") ∈ (TB.tbL2 env blocks).errors ∧
      TB.tStatus (TB.tbL2 env blocks) ≠ "PASS") := by
  refine ⟨?_, ?_, ?_⟩
  · intro env blocks p hmem habs
    have hmem' := ss_pypiLoop_err_mem env p (SS.pypiPkgsOf blocks) hmem habs
    have hne : (SS.pypiPkgsOf blocks).isEmpty = false := by
      cases h : SS.pypiPkgsOf blocks with
      | nil => rw [h] at hmem; simp at hmem
      | cons a l => rfl
    have herr : ("❌ pip:" ++ p ++ " — not found") ∈
        (SS.npmLoop env (SS.npmPkgsOf blocks)).errors ++
          (SS.pypiLoop env (SS.pypiPkgsOf blocks)).errors :=
      List.mem_append_right _ hmem'
    have he2 : ((SS.npmLoop env (SS.npmPkgsOf blocks)).errors ++
        (SS.pypiLoop env (SS.pypiPkgsOf blocks)).errors).isEmpty = false := by
      cases h : (SS.npmLoop env (SS.npmPkgsOf blocks)).errors ++
          (SS.pypiLoop env (SS.pypiPkgsOf blocks)).errors with
      | nil => rw [h] at herr; simp at herr
      | cons a l => rfl
    unfold SS.testDeps
    dsimp only
    rw [if_neg (by simp [hne])]
    dsimp only
    exact ⟨by rw [if_neg (by simp [he2])], herr⟩
  · intro env blocks p hmem habs
    have hmem' := ss_npmLoop_err_mem env p (SS.npmPkgsOf blocks) hmem habs
    have hne : (SS.npmPkgsOf blocks).isEmpty = false := by
      cases h : SS.npmPkgsOf blocks with
      | nil => rw [h] at hmem; simp at hmem
      | cons a l => rfl
    have herr : ("❌ npm:" ++ p ++ " — not found (wrong package name?)") ∈
        (SS.npmLoop env (SS.npmPkgsOf blocks)).errors ++
          (SS.pypiLoop env (SS.pypiPkgsOf blocks)).errors :=
      List.mem_append_left _ hmem'
    have he2 : ((SS.npmLoop env (SS.npmPkgsOf blocks)).errors ++
        (SS.pypiLoop env (SS.pypiPkgsOf blocks)).errors).isEmpty = false := by
      cases h : (SS.npmLoop env (SS.npmPkgsOf blocks)).errors ++
          (SS.pypiLoop env (SS.pypiPkgsOf blocks)).errors with
      | nil => rw [h] at herr; simp at herr
      | cons a l => rfl
    unfold SS.testDeps
    dsimp only
    rw [if_neg (by simp [hne])]
    dsimp only
    exact ⟨by rw [if_neg (by simp [he2])], herr⟩
  · intro env blocks p hmem habs
    have hmem' := tb_pypiLoop_err_mem env p (TB.pypiPkgsOf blocks) hmem habs
    have hne : (TB.pypiPkgsOf blocks).isEmpty = false := by
      cases h : TB.pypiPkgsOf blocks with
      | nil => rw [h] at hmem; simp at hmem
      | cons a l => rfl
    have herr : ("❌ pip:" ++ p ++ " — not found in PyPI") ∈
        (TB.tbNpmLoop env (TB.npmPkgsOf blocks)).errors ++
          (TB.tbPypiLoop env (TB.pypiPkgsOf blocks)).errors :=
      List.mem_append_right _ hmem'
    have hnil : (TB.tbNpmLoop env (TB.npmPkgsOf blocks)).errors ++
        (TB.tbPypiLoop env (TB.pypiPkgsOf blocks)).errors ≠ [] :=
      List.ne_nil_of_mem herr
    unfold TB.tbL2
    dsimp only
    rw [if_neg (by simp [hne])]
    dsimp only
    refine ⟨herr, ?_⟩
    unfold TB.tStatus
    dsimp only
    rw [if_neg hnil]
    split <;> decide

/-- C3 witness: verbatim failure notes and statuses at concrete inputs in
all three parts. -/
theorem c3_absent_package_in_notes_witness :
    ((SS.testDeps envC3 (SS.extract docC3)).status = "FAIL" ∧
     ("❌ pip:" ++ "fakepkg" ++ " — not found") ∈ (SS.testDeps envC3 (SS.extract docC3)).errors) ∧
    ((SS.testDeps envC1 (SS.extract docC3n)).status = "FAIL" ∧
     ("❌ npm:" ++ "leftpady" ++ " — not found (wrong package name?)") ∈
       (SS.testDeps envC1 (SS.extract docC3n)).errors) ∧
    (("❌ pip:" ++ "fakepkg" ++ " — not found in PyPI") ∈ (TB.tbL2 envC3 (TB.extract docC3)).errors ∧
     TB.tStatus (TB.tbL2 envC3 (TB.extract docC3)) ≠ "PASS") :=
  ⟨c3_absent_package_in_notes.1 envC3 (SS.extract docC3) "fakepkg" (by decide) (by decide),
   c3_absent_package_in_notes.2.1 envC1 (SS.extract docC3n) "leftpady" (by decide) (by decide),
   c3_absent_package_in_notes.2.2 envC3 (TB.extract docC3) "fakepkg" (by decide) (by decide)⟩

/-- C3 counterexample: a run with three looked-up python packages of which
exactly one is absent gives `test_bot.py`'s L2 level status PARTIAL — not
FAIL as the claim demands. -/
theorem c3_counterexample :
    envC3.pypi "fakepkg" = none ∧
    "fakepkg" ∈ TB.pypiPkgsOf (TB.extract docC3) ∧
    TB.tStatus (TB.tbL2 envC3 (TB.extract docC3)) = "PARTIAL" := by
  refine ⟨by decide, by decide, by decide⟩

/-! ## Claim C4 -/

lemma autoFix_calls_le (env : Env) (k : Bool) (c : String) (stages : List SS.Stage) :
    (SS.autoFix env k c stages).2 ≤ 1 := by
  unfold SS.autoFix
  split
  · simp
  · dsimp only
    split
    · simp
    · split <;> simp

lemma tbFix_calls_le (env : Env) (k : Bool) (c : String) (results : List TB.TRes) :
    (TB.tbFix env k c results).2 ≤ 1 := by
  unfold TB.tbFix
  split
  · simp
  · dsimp only
    split
    · simp
    · split <;> simp

/-- C4 (confirmed): for every run of either pipeline, at most one external
repair request is made — the bound holds over every collaborator outcome,
in particular when the re-tested repaired document hard-fails again. -/
theorem c4_at_most_one_repair :
    ∀ (env : Env) (c : String) (hasKey push : Bool),
      (SS.masterRun env c hasKey push).fixCalls ≤ 1 ∧
      (TB.tbRun env c hasKey push).fixCalls ≤ 1 := by
  intro env c k p
  constructor
  · unfold SS.masterRun
    split
    · simp
    · unfold SS.masterDecide
      repeat' first
        | ((try dsimp only); split)
      all_goals dsimp only
      all_goals first
        | decide
        | exact autoFix_calls_le env k c _
  · unfold TB.tbRun
    repeat' first
      | ((try dsimp only); split)
    all_goals try (dsimp only; decide)
    all_goals unfold TB.tbDecide
    all_goals repeat' first
      | ((try dsimp only); split)
    all_goals dsimp only
    all_goals first
      | decide
      | exact tbFix_calls_le env k c _

/-! ## Claim C9 -/

lemma tbSandboxLoop_passed_le (env : Env) :
    ∀ (i : Nat) (bs : List TB.TBlock) (acc : SS.ExecAcc),
      TB.tbSandboxLoop env i bs = Except.ok acc → acc.passed ≤ bs.length := by
  intro i bs
  induction bs generalizing i with
  | nil =>
    intro acc h
    simp only [TB.tbSandboxLoop, Except.ok.injEq] at h
    subst h
    exact Nat.le_refl 0
  | cons b bs ih =>
    intro acc h
    unfold TB.tbSandboxLoop at h
    split at h
    · simp at h
    · split at h
      · simp at h
      · rename_i r hrec
        have hr := ih (i + 1) r hrec
        (repeat' split at h) <;>
          (simp only [Except.ok.injEq] at h; subst h; dsimp only;
           rw [List.length_cons]; omega)

lemma tbMockLoop_passed_le (env : Env) :
    ∀ (i : Nat) (bs : List TB.TBlock) (acc : SS.ExecAcc),
      TB.tbMockLoop env i bs = Except.ok acc → acc.passed ≤ bs.length := by
  intro i bs
  induction bs generalizing i with
  | nil =>
    intro acc h
    simp only [TB.tbMockLoop, Except.ok.injEq] at h
    subst h
    exact Nat.le_refl 0
  | cons b bs ih =>
    intro acc h
    unfold TB.tbMockLoop at h
    split at h
    · simp at h
    · split at h
      · simp at h
      · rename_i r hrec
        have hr := ih (i + 1) r hrec
        (repeat' split at h) <;>
          (simp only [Except.ok.injEq] at h; subst h; dsimp only;
           rw [List.length_cons]; omega)

/-- C9 (confirmed): `test_bot.py`'s L3 executes only the first 5 candidates
while dividing the score by the full candidate count, so with more than 5
candidates the score is at most `5 / candidates` even when every executed
block succeeds; L4 has the same shape with its smaller cap of 3 over the
credential-requiring candidates; `sharpskill.py`'s L3 likewise executes
only the first 4 candidates. -/
theorem c9_execution_caps :
    (∀ (env : Env) (blocks : List TB.TBlock) (r : TB.TRes) (ex : List TB.TBlock),
      TB.tbL3 env blocks = Except.ok (r, ex) →
      ex = (TB.runnableOf blocks).take 5 ∧
      (5 < (TB.runnableOf blocks).length →
        r.score ≤ 5 / ((TB.runnableOf blocks).length : ℚ))) ∧
    (∀ (env : Env) (blocks : List TB.TBlock) (r : TB.TRes) (ex : List TB.TBlock),
      TB.tbL4 env blocks = Except.ok (r, ex) →
      ex = (TB.apiBlocksOf blocks).take 3 ∧
      (3 < (TB.apiBlocksOf blocks).length →
        r.score ≤ 3 / ((TB.apiBlocksOf blocks).length : ℚ))) ∧
    (∀ (env : Env) (blocks : List SS.Block),
      (SS.testSandbox env blocks).2 = (SS.runnableOf blocks).take 4) := by
  refine ⟨?_, ?_, ?_⟩
  · intro env blocks r ex h
    unfold TB.tbL3 at h
    dsimp only at h
    split at h
    · rename_i hemp
      have hnil : TB.runnableOf blocks = [] := by
        cases hc : TB.runnableOf blocks with
        | nil => rfl
        | cons a l => rw [hc] at hemp; simp at hemp
      simp only [Except.ok.injEq, Prod.mk.injEq] at h
      obtain ⟨hr, hex⟩ := h
      subst hr
      subst hex
      constructor
      · rw [hnil]; rfl
      · intro hlen; rw [hnil] at hlen; simp at hlen
    · split at h
      · simp at h
      · rename_i acc hacc
        simp only [Except.ok.injEq, Prod.mk.injEq] at h
        obtain ⟨hr, hex⟩ := h
        subst hr
        constructor
        · exact hex.symm
        · intro hlen
          have hple : acc.passed ≤ 5 := by
            have := tbSandboxLoop_passed_le env 0 ((TB.runnableOf blocks).take 5) acc hacc
            calc acc.passed ≤ ((TB.runnableOf blocks).take 5).length := this
              _ ≤ 5 := List.length_take_le _ _
          have hmax : max (TB.runnableOf blocks).length 1 = (TB.runnableOf blocks).length := by
            omega
          dsimp only
          rw [hmax]
          have hpos : (0 : ℚ) < ((TB.runnableOf blocks).length : ℚ) := by
            exact_mod_cast Nat.lt_of_lt_of_le (by omega) (Nat.le_of_lt hlen)
          rw [div_le_div_iff_of_pos_right hpos]
          exact_mod_cast hple
  · intro env blocks r ex h
    unfold TB.tbL4 at h
    dsimp only at h
    split at h
    · rename_i hemp
      have hnil : TB.apiBlocksOf blocks = [] := by
        cases hc : TB.apiBlocksOf blocks with
        | nil => rfl
        | cons a l => rw [hc] at hemp; simp at hemp
      simp only [Except.ok.injEq, Prod.mk.injEq] at h
      obtain ⟨hr, hex⟩ := h
      subst hr
      subst hex
      constructor
      · rw [hnil]; rfl
      · intro hlen; rw [hnil] at hlen; simp at hlen
    · split at h
      · simp at h
      · rename_i acc hacc
        simp only [Except.ok.injEq, Prod.mk.injEq] at h
        obtain ⟨hr, hex⟩ := h
        subst hr
        constructor
        · exact hex.symm
        · intro hlen
          have hple : acc.passed ≤ 3 := by
            have := tbMockLoop_passed_le env 0 ((TB.apiBlocksOf blocks).take 3) acc hacc
            calc acc.passed ≤ ((TB.apiBlocksOf blocks).take 3).length := this
              _ ≤ 3 := List.length_take_le _ _
          have hmax : max (TB.apiBlocksOf blocks).length 1 = (TB.apiBlocksOf blocks).length := by
            omega
          dsimp only
          rw [hmax]
          have hpos : (0 : ℚ) < ((TB.apiBlocksOf blocks).length : ℚ) := by
            exact_mod_cast Nat.lt_of_lt_of_le (by omega) (Nat.le_of_lt hlen)
          rw [div_le_div_iff_of_pos_right hpos]
          exact_mod_cast hple
  · intro env blocks
    unfold SS.testSandbox
    dsimp only
    split
    · rename_i hemp
      have hnil : SS.runnableOf blocks = [] := by
        cases hc : SS.runnableOf blocks with
        | nil => rfl
        | cons a l => rw [hc] at hemp; simp at hemp
      rw [hnil]
      rfl
    · rfl

/-- C9 witness: ten blocks with six L3 candidates and four L4 candidates,
every executed block succeeding — the L3 score is 5/6, the L4 score 3/4. -/
theorem c9_execution_caps_witness :
    TB.tbL3 envC9 blocksC9 = Except.ok (tbL3C9, (TB.runnableOf blocksC9).take 5) ∧
    5 < (TB.runnableOf blocksC9).length ∧
    tbL3C9.score ≤ 5 / ((TB.runnableOf blocksC9).length : ℚ) ∧
    TB.tbL4 envC9 blocksC9 = Except.ok (tbL4C9, (TB.apiBlocksOf blocksC9).take 3) ∧
    3 < (TB.apiBlocksOf blocksC9).length ∧
    tbL4C9.score ≤ 3 / ((TB.apiBlocksOf blocksC9).length : ℚ) :=
  ⟨by decide, by decide,
   (c9_execution_caps.1 envC9 blocksC9 tbL3C9 ((TB.runnableOf blocksC9).take 5)
      (by decide)).2 (by decide),
   by decide, by decide,
   (c9_execution_caps.2.1 envC9 blocksC9 tbL4C9 ((TB.apiBlocksOf blocksC9).take 3)
      (by decide)).2 (by decide)⟩

/-! ## Claim C6 -/

lemma testDeps_name (env : Env) (blocks : List SS.Block) :
    (SS.testDeps env blocks).name = "TEST_L2_DEPS" := by
  unfold SS.testDeps
  dsimp only
  split <;> rfl

lemma testSandbox_name (env : Env) (blocks : List SS.Block) :
    (SS.testSandbox env blocks).1.name = "TEST_L3_SANDBOX" := by
  unfold SS.testSandbox
  dsimp only
  split <;> rfl

lemma testMock_name (env : Env) (blocks : List SS.Block) :
    (SS.testMock env blocks).1.name = "TEST_L4_MOCK_API" := by
  unfold SS.testMock
  dsimp only
  split <;> rfl

lemma testL1Blocks_ok_name (env : Env) (blocks : List SS.Block) (logs : List String)
    (s : SS.Stage) (t : List String)
    (h : SS.testL1Blocks env blocks logs = Except.ok (s, t)) : s.name = "TEST_L1_SYNTAX" := by
  unfold SS.testL1Blocks at h
  split at h
  · simp only [Except.ok.injEq, Prod.mk.injEq] at h
    rw [← h.1]
  · split at h
    · simp at h
    · simp only [Except.ok.injEq, Prod.mk.injEq] at h
      rw [← h.1]

lemma testL1_ok_name (env : Env) (blocks : List SS.Block) (content : String)
    (s : SS.Stage) (t : List String)
    (h : SS.testL1 env blocks content = Except.ok (s, t)) : s.name = "TEST_L1_SYNTAX" := by
  unfold SS.testL1 at h
  split at h
  · split at h
    · simp only [Except.ok.injEq, Prod.mk.injEq] at h
      rw [← h.1]
    · exact testL1Blocks_ok_name env blocks _ s t h
  · exact testL1Blocks_ok_name env blocks _ s t h

lemma runAll_names (env : Env) (c : String) (q : ℚ) (stages : List SS.Stage)
    (h : SS.runAll env c = Except.ok (q, stages)) :
    stages.map SS.Stage.name =
      ["TEST_L1_SYNTAX", "TEST_L2_DEPS", "TEST_L3_SANDBOX", "TEST_L4_MOCK_API"] := by
  unfold SS.runAll at h
  dsimp only at h
  split at h
  · simp at h
  · rename_i s1 t1 heq
    simp only [Except.ok.injEq, Prod.mk.injEq] at h
    rw [← h.2]
    simp only [List.map]
    rw [testL1_ok_name env (SS.extract c) c s1 t1 heq, testDeps_name, testSandbox_name,
        testMock_name]

lemma overallScore_eq_amended (stages : List SS.Stage)
    (h : ∀ s ∈ stages, strStarts s.name "TEST" = true) :
    SS.overallScore stages = amendedLevelMean stages := by
  unfold SS.overallScore amendedLevelMean
  dsimp only
  rw [List.filter_eq_self.mpr h]
  have hfun : SS.levelScore = specLevelVal := rfl
  rw [hfun]
  by_cases hnil : stages = []
  · subst hnil; simp
  · rw [if_neg hnil]

/-- C6 (amended): the persisted `overall_score` of a completed run is the
mean over only those of the four level results whose status is PASS
(1.0), SKIP (0.9 — strictly between 0.5 and 1.0) or FAIL (0.0); a PARTIAL
level is excluded from numerator and denominator alike (and a report with
no qualifying level scores 0.0), rather than contributing a fixed value to
a mean over exactly four levels. -/
theorem c6_overall_score_drops_partial :
    ∀ (env : Env) (c : String) (q : ℚ) (stages : List SS.Stage),
      SS.runAll env c = Except.ok (q, stages) →
      SS.overallScore stages = amendedLevelMean stages := by
  intro env c q stages h
  apply overallScore_eq_amended
  intro s hs
  have hmem : s.name ∈ stages.map SS.Stage.name := List.mem_map_of_mem _ hs
  rw [runAll_names env c q stages h] at hmem
  simp only [List.mem_cons, List.not_mem_nil, or_false] at hmem
  rcases hmem with h1 | h1 | h1 | h1 <;> rw [h1] <;> decide

/-- C6 witness: the amended aggregation evaluated on run A (statuses
PASS, SKIP, PARTIAL, PASS). -/
theorem c6_overall_score_drops_partial_witness :
    SS.runAll envC6A docC6 = Except.ok (7/8, stagesC6A) ∧
    SS.overallScore stagesC6A = amendedLevelMean stagesC6A :=
  ⟨by decide, c6_overall_score_drops_partial envC6A docC6 (7/8) stagesC6A (by decide)⟩

/-- C6 counterexample: no fixed SKIP value in (0.5, 1.0) and no fixed
PARTIAL value make `overall_score` the four-level mean on both run A
(levels PASS, SKIP, PARTIAL, PASS; score 29/30) and run B (levels FAIL,
SKIP, PARTIAL, PASS; score 19/30): the two runs' code scores differ by
1/3 while any four-level means differ by exactly 1/4. -/
theorem c6_counterexample :
    ¬ ∃ skipVal partVal : ℚ,
      (1/2 < skipVal ∧ skipVal < 1) ∧
      runStatuses envC6A docC6 = some ["PASS", "SKIP", "PARTIAL", "PASS"] ∧
      runStatuses envC6B docC6 = some ["FAIL", "SKIP", "PARTIAL", "PASS"] ∧
      runOverall envC6A docC6 = some ((1 + skipVal + partVal + 1) / 4) ∧
      runOverall envC6B docC6 = some ((0 + skipVal + partVal + 1) / 4) := by
  rintro ⟨s, v, -, -, -, hA, hB⟩
  have hA' : runOverall envC6A docC6 = some (29/30 : ℚ) := by decide
  have hB' : runOverall envC6B docC6 = some (19/30 : ℚ) := by decide
  rw [hA'] at hA
  rw [hB'] at hB
  simp only [Option.some.injEq] at hA hB
  linarith

/-! ## Claim C1 -/

lemma masterDecide_noKey_hard (env : Env) (c : String) (push : Bool) (q : ℚ)
    (stages : List SS.Stage) (h : SS.hardFail stages = true) :
    SS.masterDecide env c false push q stages =
      { result := Except.ok "BETA", stages := stages, runScore := some q,
        fixedContent := none, fixStages := [], fixCalls := 0,
        events := SS.levelEvents 0 stages ++ [Event.draft] ++
                  (if push then [Event.pushReq "BETA"] else []) } := by
  unfold SS.masterDecide
  dsimp only
  rw [if_neg (by simp [h]), if_neg (by simp)]

lemma masterDecide_key_fixNone (env : Env) (c : String) (push : Bool) (q : ℚ)
    (stages : List SS.Stage) (h : SS.hardFail stages = true)
    (hfix : (SS.autoFix env true c stages).1 = none) :
    SS.masterDecide env c true push q stages =
      { result := Except.ok "FAIL", stages := stages, runScore := some q,
        fixedContent := none, fixStages := [],
        fixCalls := (SS.autoFix env true c stages).2,
        events := SS.levelEvents 0 stages ++
                  List.replicate (SS.autoFix env true c stages).2 Event.fixRequest ++
                  [Event.draft] } := by
  unfold SS.masterDecide
  dsimp only
  rw [if_neg (by simp [h]), if_pos ⟨h, rfl⟩, hfix]

lemma tbDecide_noKey_hard_result (env : Env) (c : String) (push : Bool)
    (results : List TB.TRes) (h : TB.tbHard results = true) :
    (TB.tbDecide env c false push results).result = Except.ok "BETA" := by
  unfold TB.tbDecide
  dsimp only
  rw [if_neg (by simp [h]), if_neg (by simp)]

/-- C1 (amended): a run with a hard failure (L1 or L2 FAIL) and no repair
capability is routed to BETA — the document is saved as a draft *and* a
publish with the BETA label is requested — not to FAIL.  Terminal state
FAIL (draft only, no publish) occurs exactly when repair capability is
present but the repair produced nothing usable.  The test-bot pipeline
routes the no-capability hard failure to BETA as well. -/
theorem c1_hard_failure_routing :
    (∀ (env : Env) (c : String) (push : Bool) (st : String),
      (SS.masterRun env c false push).result = Except.ok st →
      SS.hardFail (SS.masterRun env c false push).stages = true →
      st = "BETA" ∧ Event.draft ∈ (SS.masterRun env c false push).events ∧
      (push = true → Event.pushReq "BETA" ∈ (SS.masterRun env c false push).events)) ∧
    (∀ (env : Env) (c : String) (push : Bool) (st : String),
      (SS.masterRun env c true push).result = Except.ok st →
      SS.hardFail (SS.masterRun env c true push).stages = true →
      (SS.autoFix env true c (SS.masterRun env c true push).stages).1 = none →
      st = "FAIL" ∧ Event.draft ∈ (SS.masterRun env c true push).events ∧
      ∀ lab, Event.pushReq lab ∉ (SS.masterRun env c true push).events) ∧
    (∀ (env : Env) (c : String) (push : Bool) (st : String),
      (TB.tbRun env c false push).result = Except.ok st →
      TB.tbHard (TB.tbRun env c false push).results = true →
      st = "BETA") := by
  refine ⟨?_, ?_, ?_⟩
  · intro env c push st hres hhard
    unfold SS.masterRun at hres hhard ⊢
    cases hrun : SS.runAll env c with
    | error e => rw [hrun] at hres; simp at hres
    | ok p =>
      obtain ⟨q, stages⟩ := p
      rw [hrun] at hres hhard
      dsimp only at hres hhard
      rw [masterDecide_stages] at hhard
      dsimp only
      rw [masterDecide_noKey_hard env c push q stages hhard] at hres ⊢
      refine ⟨by simpa using hres.symm, by simp, ?_⟩
      intro hp
      subst hp
      simp
  · intro env c push st hres hhard hfix
    unfold SS.masterRun at hres hhard hfix ⊢
    cases hrun : SS.runAll env c with
    | error e => rw [hrun] at hres; simp at hres
    | ok p =>
      obtain ⟨q, stages⟩ := p
      rw [hrun] at hres hhard hfix
      dsimp only at hres hhard hfix
      rw [masterDecide_stages] at hhard hfix
      dsimp only
      rw [masterDecide_key_fixNone env c push q stages hhard hfix] at hres ⊢
      refine ⟨by simpa using hres.symm, by simp, ?_⟩
      intro lab
      simp [SS.levelEvents, List.mem_replicate]
  · intro env c push st hres hhard
    unfold TB.tbRun at hres hhard
    dsimp only at hres hhard
    cases h1 : TB.tbL1 env (TB.extract c) with
    | error e => rw [h1] at hres; simp at hres
    | ok p1 =>
      obtain ⟨r1, t1⟩ := p1
      rw [h1] at hres hhard
      dsimp only at hres hhard
      cases h3 : TB.tbL3 env (TB.extract c) with
      | error e => rw [h3] at hres; simp at hres
      | ok p3 =>
        obtain ⟨r3, t3⟩ := p3
        rw [h3] at hres hhard
        dsimp only at hres hhard
        cases h4 : TB.tbL4 env (TB.extract c) with
        | error e => rw [h4] at hres; simp at hres
        | ok p4 =>
          obtain ⟨r4, t4⟩ := p4
          rw [h4] at hres hhard
          dsimp only at hres hhard
          rw [tbDecide_results] at hhard
          rw [tbDecide_noKey_hard_result env c push _ hhard] at hres
          simpa using hres.symm

/-- C1 witness: the routing facts instantiated on the scenario-2 document
with the absent package, with and without repair capability. -/
theorem c1_hard_failure_routing_witness :
    ("BETA" = "BETA" ∧ Event.draft ∈ (SS.masterRun envC1 docC1 false true).events ∧
      (true = true → Event.pushReq "BETA" ∈ (SS.masterRun envC1 docC1 false true).events)) ∧
    ("FAIL" = "FAIL" ∧ Event.draft ∈ (SS.masterRun envC1 docC1 true true).events ∧
      ∀ lab, Event.pushReq lab ∉ (SS.masterRun envC1 docC1 true true).events) ∧
    ("BETA" = "BETA") :=
  ⟨c1_hard_failure_routing.1 envC1 docC1 true "BETA" (by decide) (by decide),
   c1_hard_failure_routing.2.1 envC1 docC1 true "FAIL" (by decide) (by decide) (by decide),
   c1_hard_failure_routing.2.2 envC1 docC1 true "BETA" (by decide) (by decide)⟩

/-- C1 counterexample: the claim's own scenario — a document whose only
block imports an absent package, run without repair capability — ends in
BETA (with a push request carrying the BETA label), not in the claimed
terminal state FAIL, in both implementations. -/
theorem c1_counterexample :
    SS.hardFail (SS.masterRun envC1 docC1 false true).stages = true ∧
    (SS.masterRun envC1 docC1 false true).result = Except.ok "BETA" ∧
    (SS.masterRun envC1 docC1 false true).result ≠ Except.ok "FAIL" ∧
    Event.pushReq "BETA" ∈ (SS.masterRun envC1 docC1 false true).events ∧
    TB.tbHard (TB.tbRun envC1 docC1 false true).results = true ∧
    (TB.tbRun envC1 docC1 false true).result = Except.ok "BETA" := by
  refine ⟨by decide, by decide, by decide, by decide, by decide, by decide⟩

/-! ## Claim C2 -/

lemma filter_isRetest_map_level0 {α : Type} (f : α → String) (l : List α) :
    ((l.map fun x => Event.level 0 (f x)).filter isRetest) = [] := by
  induction l with
  | nil => rfl
  | cons x t ih => simp [isRetest, ih]

lemma filter_isRetest_map_level1 {α : Type} (f : α → String) (l : List α) :
    ((l.map fun x => Event.level 1 (f x)).filter isRetest) =
      l.map fun x => Event.level 1 (f x) := by
  induction l with
  | nil => rfl
  | cons x t ih => simp [isRetest, ih]

lemma filter_isRetest_levelEvents0 (stages : List SS.Stage) :
    (SS.levelEvents 0 stages).filter isRetest = [] := by
  unfold SS.levelEvents
  simp [isRetest, filter_isRetest_map_level0 SS.Stage.name]

lemma filter_isRetest_levelEvents1 (stages : List SS.Stage) :
    (SS.levelEvents 1 stages).filter isRetest =
      Event.extractDoc 1 :: (stages.map fun s => Event.level 1 s.name) := by
  unfold SS.levelEvents
  simp [isRetest, filter_isRetest_map_level1 SS.Stage.name]

lemma filter_isRetest_replicate (k : Nat) :
    (List.replicate k Event.fixRequest).filter isRetest = [] := by
  induction k with
  | zero => rfl
  | succ n ih => simp [List.replicate_succ, isRetest, ih]

lemma filter_isRetest_push (push : Bool) (lab : String) :
    ((if push = true then [Event.pushReq lab] else []).filter isRetest) = [] := by
  cases push <;> simp [isRetest]

lemma map_level1_of_names (fstages : List SS.Stage) (L : List String)
    (h : fstages.map SS.Stage.name = L) :
    (fstages.map fun s => Event.level 1 s.name) = L.map (Event.level 1) := by
  rw [← h, List.map_map]
  rfl

/-- C2 (amended): when a repair candidate is produced, `MasterPipeline.run`
re-runs extraction and all four validation levels exactly once on the
repaired text — the repaired-phase events are exactly one extraction
followed by L1, L2, L3, L4, and the accepted second report is exactly a
fresh `run_all` of the repaired text.  `SkillTester.test_skill`
(`test_bot.py`), however, re-runs extraction and only L1 and L2 on the
repaired text; its acceptance is decided by those two level results
alone, and L3/L4 are never re-run. -/
theorem c2_retest_levels :
    (∀ (env : Env) (c : String) (push : Bool) (st f : String),
      (SS.masterRun env c true push).result = Except.ok st →
      (SS.masterRun env c true push).fixedContent = some f →
      ((SS.masterRun env c true push).events.filter isRetest =
        [Event.extractDoc 1, Event.level 1 "TEST_L1_SYNTAX", Event.level 1 "TEST_L2_DEPS",
         Event.level 1 "TEST_L3_SANDBOX", Event.level 1 "TEST_L4_MOCK_API"] ∧
       ∃ fq, SS.runAll env f = Except.ok (fq, (SS.masterRun env c true push).fixStages))) ∧
    (∀ (env : Env) (c : String) (push : Bool) (st f : String),
      (TB.tbRun env c true push).result = Except.ok st →
      (TB.tbRun env c true push).fixedContent = some f →
      ((TB.tbRun env c true push).events.filter isRetest =
        [Event.extractDoc 1, Event.level 1 "L1", Event.level 1 "L2"] ∧
       (∃ re1 checked, TB.tbL1 env (TB.extract f) = Except.ok (re1, checked) ∧
          (TB.tbRun env c true push).reL1 = some re1) ∧
       (TB.tbRun env c true push).reL2 = some (TB.tbL2 env (TB.extract f)))) := by
  constructor
  · intro env c push st f hres hfix
    unfold SS.masterRun at hres hfix ⊢
    cases hrun : SS.runAll env c with
    | error e => (try rw [hrun] at hfix); simp at hfix
    | ok p =>
      obtain ⟨q, stages⟩ := p
      (try rw [hrun] at hres); (try rw [hrun] at hfix)
      dsimp only at hres hfix
      dsimp only
      unfold SS.masterDecide at hres hfix ⊢
      dsimp only at hres hfix ⊢
      by_cases hc1 : q ≥ 3/4 ∧ SS.hardFail stages = false
      · rw [if_pos hc1] at hfix
        simp at hfix
      · rw [if_neg hc1] at hres hfix ⊢
        by_cases hc2 : SS.hardFail stages = true ∧ true = true
        · rw [if_pos hc2] at hres hfix ⊢
          cases hfx : (SS.autoFix env true c stages).1 with
          | none => (try rw [hfx] at hfix); simp at hfix
          | some fixed =>
            (try rw [hfx] at hres); (try rw [hfx] at hfix)
            dsimp only at hres hfix ⊢
            cases hra : SS.runAll env fixed with
            | error e => (try rw [hra] at hres); simp at hres
            | ok p2 =>
              obtain ⟨fq, fstages⟩ := p2
              (try rw [hra] at hres); (try rw [hra] at hfix)
              dsimp only at hres hfix ⊢
              have hnames := runAll_names env fixed fq fstages hra
              have hmap := map_level1_of_names fstages _ hnames
              by_cases hacc : fq ≥ 3/4 ∧ SS.hardFail fstages = false
              · rw [if_pos hacc] at hfix ⊢
                dsimp only at hfix ⊢
                simp only [Option.some.injEq] at hfix
                subst hfix
                refine ⟨?_, ⟨fq, by rw [hra]⟩⟩
                simp only [List.filter_append, filter_isRetest_levelEvents0,
                           filter_isRetest_replicate, filter_isRetest_levelEvents1,
                           filter_isRetest_push, List.nil_append, List.append_nil]
                rw [hmap]
                rfl
              · rw [if_neg hacc] at hfix ⊢
                dsimp only at hfix ⊢
                simp only [Option.some.injEq] at hfix
                subst hfix
                refine ⟨?_, ⟨fq, by rw [hra]⟩⟩
                simp only [List.filter_append, filter_isRetest_levelEvents0,
                           filter_isRetest_replicate, filter_isRetest_levelEvents1,
                           filter_isRetest_push, List.nil_append, List.append_nil,
                           List.filter_cons, isRetest]
                rw [hmap]
                rfl
        · rw [if_neg hc2] at hfix
          simp at hfix
  · intro env c push st f hres hfix
    unfold TB.tbRun at hres hfix ⊢
    dsimp only at hres hfix ⊢
    cases h1 : TB.tbL1 env (TB.extract c) with
    | error e => (try rw [h1] at hfix); simp at hfix
    | ok p1 =>
      obtain ⟨r1, t1⟩ := p1
      (try rw [h1] at hres); (try rw [h1] at hfix)
      dsimp only at hres hfix ⊢
      cases h3 : TB.tbL3 env (TB.extract c) with
      | error e => (try rw [h3] at hfix); simp at hfix
      | ok p3 =>
        obtain ⟨r3, t3⟩ := p3
        (try rw [h3] at hres); (try rw [h3] at hfix)
        dsimp only at hres hfix ⊢
        cases h4 : TB.tbL4 env (TB.extract c) with
        | error e => (try rw [h4] at hfix); simp at hfix
        | ok p4 =>
          obtain ⟨r4, t4⟩ := p4
          (try rw [h4] at hres); (try rw [h4] at hfix)
          dsimp only at hres hfix ⊢
          unfold TB.tbDecide at hres hfix ⊢
          dsimp only at hres hfix ⊢
          by_cases hc1 : TB.tbHard [r1, TB.tbL2 env (TB.extract c), r3, r4] = false ∧
              TB.tbScore [r1, TB.tbL2 env (TB.extract c), r3, r4] ≥ 7/10
          · rw [if_pos hc1] at hfix
            simp at hfix
          · rw [if_neg hc1] at hres hfix ⊢
            by_cases hc2 : TB.tbHard [r1, TB.tbL2 env (TB.extract c), r3, r4] = true ∧
                true = true
            · rw [if_pos hc2] at hres hfix ⊢
              cases hfx : (TB.tbFix env true c
                  [r1, TB.tbL2 env (TB.extract c), r3, r4]).1 with
              | none => (try rw [hfx] at hfix); simp at hfix
              | some fixed =>
                (try rw [hfx] at hres); (try rw [hfx] at hfix)
                dsimp only at hres hfix ⊢
                cases hre : TB.tbL1 env (TB.extract fixed) with
                | error e => (try rw [hre] at hres); simp at hres
                | ok p5 =>
                  obtain ⟨re1, checked⟩ := p5
                  (try rw [hre] at hres); (try rw [hre] at hfix)
                  dsimp only at hres hfix ⊢
                  by_cases hacc : TB.tStatus re1 ≠ "FAIL" ∧
                      TB.tStatus (TB.tbL2 env (TB.extract fixed)) ≠ "FAIL"
                  · rw [if_pos hacc] at hfix ⊢
                    dsimp only at hfix ⊢
                    simp only [Option.some.injEq] at hfix
                    subst hfix
                    refine ⟨?_, ⟨re1, checked, hre, rfl⟩, rfl⟩
                    simp only [List.filter_append, List.filter_cons, isRetest,
                               filter_isRetest_map_level0 TB.TRes.level,
                               filter_isRetest_replicate, filter_isRetest_push]
                    simp
                  · rw [if_neg hacc] at hfix ⊢
                    dsimp only at hfix ⊢
                    simp only [Option.some.injEq] at hfix
                    subst hfix
                    refine ⟨?_, ⟨re1, checked, hre, rfl⟩, rfl⟩
                    simp only [List.filter_append, List.filter_cons, isRetest,
                               filter_isRetest_map_level0 TB.TRes.level,
                               filter_isRetest_replicate, filter_isRetest_push]
                    simp
            · rw [if_neg hc2] at hfix
              simp at hfix

/-- C2 witness: the scenario-2 document with a repair service returning a
candidate — the repaired-phase events of both pipelines, concretely. -/
theorem c2_retest_levels_witness :
    ((SS.masterRun envFix docC1 true true).events.filter isRetest =
      [Event.extractDoc 1, Event.level 1 "TEST_L1_SYNTAX", Event.level 1 "TEST_L2_DEPS",
       Event.level 1 "TEST_L3_SANDBOX", Event.level 1 "TEST_L4_MOCK_API"] ∧
     ∃ fq, SS.runAll envFix fixedC2 =
        Except.ok (fq, (SS.masterRun envFix docC1 true true).fixStages)) ∧
    ((TB.tbRun envFix docC1 true true).events.filter isRetest =
      [Event.extractDoc 1, Event.level 1 "L1", Event.level 1 "L2"] ∧
     (∃ re1 checked, TB.tbL1 envFix (TB.extract fixedC2) = Except.ok (re1, checked) ∧
        (TB.tbRun envFix docC1 true true).reL1 = some re1) ∧
     (TB.tbRun envFix docC1 true true).reL2 = some (TB.tbL2 envFix (TB.extract fixedC2))) :=
  ⟨c2_retest_levels.1 envFix docC1 true "BETA" fixedC2 (by decide) (by decide),
   c2_retest_levels.2 envFix docC1 true "BETA" fixedC2 (by decide) (by decide)⟩

/-- C2 counterexample: a `test_bot.py` run in which the repair loop
produced a candidate repaired document, yet the repaired text is re-tested
by extraction, L1 and L2 only — no L3 or L4 event occurs on the repaired
phase, refuting that all four levels are re-run. -/
theorem c2_counterexample :
    (TB.tbRun envFix docC1 true true).fixedContent = some fixedC2 ∧
    (TB.tbRun envFix docC1 true true).events.filter isRetest =
      [Event.extractDoc 1, Event.level 1 "L1", Event.level 1 "L2"] ∧
    Event.level 1 "L3" ∉ (TB.tbRun envFix docC1 true true).events ∧
    Event.level 1 "L4" ∉ (TB.tbRun envFix docC1 true true).events := by
  refine ⟨by decide, by decide, by decide, by decide⟩

end SharpSkillPipeline
